import Mathlib

/-!
Verification of the user-account backend in src/main.py (FastAPI + MongoDB +
bcrypt + PyJWT).  The pipeline (content-type dispatch, form/JSON
normalization, pydantic validation, password hashing, token issuance, and the
four endpoints signup / login / updateProfile / deleteProfile) is shallowly
embedded as executable Lean definitions; the document store is a list of
documents threaded explicitly, and the per-call random bcrypt salt and the
current time are explicit parameters.
-/

namespace PyApp

/-! ### Substring containment

Python's string membership test (the code dispatches on
`"application/json" in content_type` and similar checks). -/

/-- Boolean prefix test on character lists. -/
def isPrefixL : List Char → List Char → Bool
  | [], _ => true
  | _ :: _, [] => false
  | a :: as, b :: bs => a == b && isPrefixL as bs

/-- Boolean infix (substring) test on character lists. -/
def isInfixL (a : List Char) : List Char → Bool
  | [] => isPrefixL a []
  | c :: bs => isPrefixL a (c :: bs) || isInfixL a bs

/-- Python's `sub in s` substring test. -/
def containsSub (sub s : String) : Bool := isInfixL sub.toList s.toList

/-! ### Model of the bcrypt library (external dependency of src/main.py)

`bcrypt.hashpw(password, gensalt())` produces a modular-crypt-format string
`$2b$12$<salt><digest>` whose digest is determined by the password and the
salt; `bcrypt.checkpw(password, stored)` re-derives the digest using the salt
embedded in `stored` and compares, and raises `ValueError("Invalid salt")`
when `stored` is not a well-formed bcrypt hash.  The model keeps exactly this
interface: a deterministic digest over an explicit salt parameter, an MCF
string layout separated by `$`, and an `Except` error for a malformed stored
hash.  The cryptographic one-wayness itself is not modelled. -/

/-- One hex digit character. -/
def hexDigit (d : Nat) : Char :=
  match d with
  | 0 => '0' | 1 => '1' | 2 => '2' | 3 => '3' | 4 => '4'
  | 5 => '5' | 6 => '6' | 7 => '7' | 8 => '8' | 9 => '9'
  | 10 => 'a' | 11 => 'b' | 12 => 'c' | 13 => 'd' | 14 => 'e'
  | _ => 'f'

/-- Fixed-width (6 hex digit) encoding of one character's code point. -/
def encChar (c : Char) : List Char :=
  [hexDigit (c.toNat / 1048576 % 16), hexDigit (c.toNat / 65536 % 16),
   hexDigit (c.toNat / 4096 % 16), hexDigit (c.toNat / 256 % 16),
   hexDigit (c.toNat / 16 % 16), hexDigit (c.toNat % 16)]

/-- Hex encoding of a character list, one `-`-terminated group per char. -/
def mangleL : List Char → List Char
  | [] => []
  | c :: cs => encChar c ++ '-' :: mangleL cs

/-- Model of `bcrypt.hashpw(password, salt)` (decoded to `str` as the code
stores it): an MCF string `$2b$12$<salt>$<digest>` whose digest depends on
the password and the salt. -/
def hashpw (password salt : String) : String :=
  String.mk ('$' :: '2' :: 'b' :: '$' :: '1' :: '2' :: '$' ::
    (mangleL salt.toList ++ '$' :: (mangleL password.toList ++ '.' :: mangleL salt.toList)))

/-- Split a character list on `$` (used to parse the MCF hash layout). -/
def splitD : List Char → List (List Char)
  | [] => [[]]
  | c :: cs =>
    if c = '$' then [] :: splitD cs
    else
      match splitD cs with
      | [] => [[c]]
      | r :: rs => (c :: r) :: rs

/-- Parse a stored hash string into its salt and digest sections; `none`
models bcrypt's rejection of a malformed salt/hash. -/
def parseHash (h : String) : Option (List Char × List Char) :=
  match splitD h.toList with
  | [[], ['2', 'b'], ['1', '2'], saltM, digestM] => some (saltM, digestM)
  | _ => none

/-- Model of `bcrypt.checkpw(password, stored)`: re-derive the digest with
the stored salt and compare; a malformed stored hash raises
`ValueError("Invalid salt")`, modelled as `.error`. -/
def checkpw (password hash : String) : Except String Bool :=
  match parseHash hash with
  | some (saltM, digestM) => .ok (digestM == mangleL password.toList ++ '.' :: saltM)
  | none => .error "Invalid salt"

/-- A string that is a well-formed bcrypt hash in the model's MCF layout. -/
def isHashStr (h : String) : Bool := (parseHash h).isSome

lemma hexDigit_ne_dollar (d : Nat) : hexDigit d ≠ '$' := by
  unfold hexDigit; split <;> decide

lemma encChar_no_dollar (c : Char) : ∀ x ∈ encChar c, x ≠ '$' := by
  intro x hx
  simp only [encChar, List.mem_cons, List.not_mem_nil, or_false] at hx
  rcases hx with h | h | h | h | h | h <;> (subst h; exact hexDigit_ne_dollar _)

lemma mangleL_no_dollar : ∀ l : List Char, ∀ x ∈ mangleL l, x ≠ '$' := by
  intro l
  induction l with
  | nil => intro x hx; simp [mangleL] at hx
  | cons c cs ih =>
    intro x hx
    simp only [mangleL, List.mem_append, List.mem_cons] at hx
    rcases hx with h | h | h
    · exact encChar_no_dollar c x h
    · subst h; decide
    · exact ih x h

lemma mangleL_length (l : List Char) : l.length ≤ (mangleL l).length := by
  induction l with
  | nil => simp [mangleL]
  | cons c cs ih =>
    simp only [mangleL, encChar, List.length_append, List.length_cons, List.length]
    omega

lemma splitD_no_dollar (l : List Char) (h : ∀ x ∈ l, x ≠ '$') : splitD l = [l] := by
  induction l with
  | nil => rfl
  | cons c cs ih =>
    have hc : c ≠ '$' := h c (by simp)
    have ihs : splitD cs = [cs] := ih (fun x hx => h x (by simp [hx]))
    simp [splitD, hc, ihs]

lemma splitD_append (a b : List Char) (h : ∀ x ∈ a, x ≠ '$') :
    splitD (a ++ '$' :: b) = a :: splitD b := by
  induction a with
  | nil => simp [splitD]
  | cons c as ih =>
    have hc : c ≠ '$' := h c (by simp)
    have ihs := ih (fun x hx => h x (by simp [hx]))
    simp [splitD, hc, ihs]

lemma splitD_hashpw (p s : String) :
    splitD (hashpw p s).toList =
      [[], ['2', 'b'], ['1', '2'], mangleL s.toList,
        mangleL p.toList ++ '.' :: mangleL s.toList] := by
  have hs : ∀ x ∈ mangleL s.toList, x ≠ '$' := mangleL_no_dollar _
  have hd : ∀ x ∈ mangleL p.toList ++ '.' :: mangleL s.toList, x ≠ '$' := by
    intro x hx
    simp only [List.mem_append, List.mem_cons] at hx
    rcases hx with h | h | h
    · exact mangleL_no_dollar _ x h
    · subst h; decide
    · exact mangleL_no_dollar _ x h
  show splitD ('$' :: '2' :: 'b' :: '$' :: '1' :: '2' :: '$' ::
      (mangleL s.toList ++ '$' :: (mangleL p.toList ++ '.' :: mangleL s.toList))) = _
  rw [show ('$' :: '2' :: 'b' :: '$' :: '1' :: '2' :: '$' ::
      (mangleL s.toList ++ '$' :: (mangleL p.toList ++ '.' :: mangleL s.toList)))
      = '$' :: (['2', 'b'] ++ '$' :: (['1', '2'] ++ '$' ::
        (mangleL s.toList ++ '$' :: (mangleL p.toList ++ '.' :: mangleL s.toList)))) from rfl]
  rw [show splitD ('$' :: (['2', 'b'] ++ '$' :: (['1', '2'] ++ '$' ::
        (mangleL s.toList ++ '$' :: (mangleL p.toList ++ '.' :: mangleL s.toList)))))
      = [] :: splitD (['2', 'b'] ++ '$' :: (['1', '2'] ++ '$' ::
        (mangleL s.toList ++ '$' :: (mangleL p.toList ++ '.' :: mangleL s.toList)))) by
    simp [splitD]]
  rw [splitD_append _ _ (by decide), splitD_append _ _ (by decide),
    splitD_append _ _ hs, splitD_no_dollar _ hd]

lemma parseHash_hashpw (p s : String) :
    parseHash (hashpw p s) =
      some (mangleL s.toList, mangleL p.toList ++ '.' :: mangleL s.toList) := by
  unfold parseHash
  rw [splitD_hashpw]
  rfl

lemma checkpw_hashpw (p s : String) : checkpw p (hashpw p s) = .ok true := by
  simp [checkpw, parseHash_hashpw]

lemma isHashStr_hashpw (p s : String) : isHashStr (hashpw p s) = true := by
  simp [isHashStr, parseHash_hashpw]

lemma hashpw_ne (p s : String) : hashpw p s ≠ p := by
  intro h
  have hlen := congrArg String.length h
  have hm : p.toList.length ≤ (mangleL p.toList).length := mangleL_length _
  have hL : (hashpw p s).length =
      7 + ((mangleL s.toList).length + (1 + ((mangleL p.toList).length +
        (1 + (mangleL s.toList).length)))) := by
    simp [hashpw, String.length, List.length_append]
    omega
  have hp : p.length = p.toList.length := rfl
  rw [hL, hp] at hlen
  omega

/-! ### Normalized request data

Form- and JSON-decoded bodies are normalized to a field-name → value
mapping (a Python dict: insertion keeps position on overwrite, appends new
keys at the end). -/

/-- A value in the normalized mapping: JSON bodies can carry strings or
integers; form bodies carry strings (an uploaded file is replaced by its
stored path before validation). -/
inductive Value where
  | str (s : String)
  | int (n : Int)
deriving DecidableEq

abbrev DataMap := List (String × Value)

/-- Python dict update `d[k] = v`: overwrite in place or append a new key. -/
def setVal : DataMap → String → Value → DataMap
  | [], k, v => [(k, v)]
  | (k', v') :: rest, k, v =>
    if k' == k then (k, v) :: rest else (k', v') :: setVal rest k v

/-- Python dict lookup `d.get(k)`. -/
def getVal (d : DataMap) (k : String) : Option Value :=
  (d.find? (fun kv => kv.1 == k)).map (fun kv => kv.2)

/-! ### The pydantic SignupModel (record validator)

`SignupModel` declares: firstName 2–30 chars, lastName 1–30 chars, age an
integer in 1..120, email a valid address, password at least 6 chars,
mobileNo 10–15 chars, profilePic a string.  `SignupModel(**data)` collects
one structured error per violated field (`ve.errors()`). -/

/-- One entry of pydantic's `ve.errors()`: the field and the violated
constraint. -/
structure FieldError where
  field : String
  err : String
deriving DecidableEq

/-- The validated record (`SignupModel` instance). -/
structure SignupRec where
  firstName : String
  lastName : String
  age : Int
  email : String
  password : String
  mobileNo : String
  profilePic : String
deriving DecidableEq

/-- A constrained `str` field with min and max length. -/
def strField (d : DataMap) (name : String) (minL maxL : Nat) : Except FieldError String :=
  match getVal d name with
  | none => .error ⟨name, "missing"⟩
  | some (.int _) => .error ⟨name, "string_type"⟩
  | some (.str s) =>
    if s.length < minL then .error ⟨name, "string_too_short"⟩
    else if maxL < s.length then .error ⟨name, "string_too_long"⟩
    else .ok s

/-- A constrained `str` field with a minimum length only (password). -/
def strMinField (d : DataMap) (name : String) (minL : Nat) : Except FieldError String :=
  match getVal d name with
  | none => .error ⟨name, "missing"⟩
  | some (.int _) => .error ⟨name, "string_type"⟩
  | some (.str s) =>
    if s.length < minL then .error ⟨name, "string_too_short"⟩ else .ok s

/-- An unconstrained `str` field (profilePic). -/
def strAnyField (d : DataMap) (name : String) : Except FieldError String :=
  match getVal d name with
  | none => .error ⟨name, "missing"⟩
  | some (.int _) => .error ⟨name, "string_type"⟩
  | some (.str s) => .ok s

/-- Decimal digit value of a character. -/
def digitVal (c : Char) : Option Nat :=
  if '0' ≤ c ∧ c ≤ '9' then some (c.toNat - 48) else none

/-- Parse a nonempty all-digit character list as a number. -/
def natOfDigitsGo (acc : Nat) : List Char → Option Nat
  | [] => some acc
  | c :: cs =>
    match digitVal c with
    | some d => natOfDigitsGo (acc * 10 + d) cs
    | none => none

/-- Parse a decimal integer string (optional leading minus), as the lax-mode
string-to-int coercion accepts it. -/
def strToInt? (s : String) : Option Int :=
  match s.toList with
  | [] => none
  | '-' :: cs =>
    match cs with
    | [] => none
    | _ => (natOfDigitsGo 0 cs).map (fun n => -(n : Int))
  | cs => (natOfDigitsGo 0 cs).map (fun n => (n : Int))

/-- The `int` field with ge/le bounds; pydantic (lax mode) coerces a decimal
string to an integer. -/
def intField (d : DataMap) (name : String) (lo hi : Int) : Except FieldError Int :=
  match getVal d name with
  | none => .error ⟨name, "missing"⟩
  | some (.int n) =>
    if n < lo then .error ⟨name, "greater_than_equal"⟩
    else if hi < n then .error ⟨name, "less_than_equal"⟩
    else .ok n
  | some (.str s) =>
    match strToInt? s with
    | some n =>
      if n < lo then .error ⟨name, "greater_than_equal"⟩
      else if hi < n then .error ⟨name, "less_than_equal"⟩
      else .ok n
    | none => .error ⟨name, "int_parsing"⟩

/-- Split a character list on `@` (helper for the email syntax check). -/
def splitA : List Char → List (List Char)
  | [] => [[]]
  | c :: cs =>
    if c = '@' then [] :: splitA cs
    else
      match splitA cs with
      | [] => [[c]]
      | r :: rs => (c :: r) :: rs

/-- Email syntax accepted by the `EmailStr` validator (email-validator):
one `@`, a nonempty local part, a domain containing an interior dot, no
spaces.  This approximates the library's syntax check. -/
def emailOk (s : String) : Bool :=
  match splitA s.toList with
  | [lp, dp] =>
    !lp.isEmpty && !dp.isEmpty && dp.contains '.' &&
      !(dp.head? == some '.') && !(dp.getLast? == some '.') &&
      !(s.toList.contains ' ')
  | _ => false

/-- The `EmailStr` field. -/
def emailField (d : DataMap) : Except FieldError String :=
  match getVal d "email" with
  | none => .error ⟨"email", "missing"⟩
  | some (.int _) => .error ⟨"email", "value_error"⟩
  | some (.str s) => if emailOk s then .ok s else .error ⟨"email", "value_error"⟩

def firstNameF (d : DataMap) : Except FieldError String := strField d "firstName" 2 30
def lastNameF (d : DataMap) : Except FieldError String := strField d "lastName" 1 30
def ageF (d : DataMap) : Except FieldError Int := intField d "age" 1 120
def passwordF (d : DataMap) : Except FieldError String := strMinField d "password" 6
def mobileF (d : DataMap) : Except FieldError String := strField d "mobileNo" 10 15
def picF (d : DataMap) : Except FieldError String := strAnyField d "profilePic"

/-- The error contribution of one field check. -/
def errL {α : Type} : Except FieldError α → List FieldError
  | .error e => [e]
  | .ok _ => []

/-- All field errors of `SignupModel(**d)`, in model field order
(`ve.errors()` collects every violated field, not just the first). -/
def validateSignup (d : DataMap) : List FieldError :=
  errL (firstNameF d) ++ errL (lastNameF d) ++ errL (ageF d) ++ errL (emailField d) ++
    errL (passwordF d) ++ errL (mobileF d) ++ errL (picF d)

/-- `SignupModel(**d)`: the validated record, or the collected errors. -/
def signupModel (d : DataMap) : Except (List FieldError) SignupRec :=
  match firstNameF d, lastNameF d, ageF d, emailField d, passwordF d, mobileF d, picF d with
  | .ok a, .ok b, .ok c, .ok e, .ok p, .ok m, .ok q => .ok ⟨a, b, c, e, p, m, q⟩
  | _, _, _, _, _, _, _ => .error (validateSignup d)

/-! ### The MongoDB users collection

One document per user: the seven schema fields plus the repository-assigned
`_id` (modelled as a counter).  `find_one` / `insert_one` / `update_one` /
`delete_one` act on the first document whose `email` matches, as MongoDB
does with the single-key filter the code uses. -/

/-- A stored user document (`users_coll` entry); `oid` models `_id`. -/
structure Doc where
  oid : Nat
  firstName : String
  lastName : String
  age : Int
  email : String
  password : String
  mobileNo : String
  profilePic : String
deriving DecidableEq

/-- The users collection plus the next `_id` to assign. -/
structure Store where
  docs : List Doc
  nextId : Nat
deriving DecidableEq

/-- `users_coll.find_one({"email": email})`. -/
def find_one (st : Store) (email : String) : Option Doc :=
  st.docs.find? (fun d => d.email == email)

/-- The document inserted by signup: `valid.model_dump()` with the password
replaced by the hash, given the assigned `_id`. -/
def docOfRec (r : SignupRec) (pwd : String) (oid : Nat) : Doc :=
  ⟨oid, r.firstName, r.lastName, r.age, r.email, pwd, r.mobileNo, r.profilePic⟩

/-- `users_coll.insert_one(doc)`: returns the assigned `_id`. -/
def insert_one (st : Store) (r : SignupRec) (pwd : String) : Nat × Store :=
  (st.nextId, ⟨st.docs ++ [docOfRec r pwd st.nextId], st.nextId + 1⟩)

/-- `$set` of the seven schema fields on an existing document. -/
def docUpd (d : Doc) (r : SignupRec) (pwd : String) : Doc :=
  ⟨d.oid, r.firstName, r.lastName, r.age, r.email, pwd, r.mobileNo, r.profilePic⟩

/-- Update the first matching document; returns `matched_count`. -/
def updGo (email : String) (r : SignupRec) (pwd : String) : List Doc → Nat × List Doc
  | [] => (0, [])
  | d :: ds =>
    if d.email == email then (1, docUpd d r pwd :: ds)
    else
      let res := updGo email r pwd ds
      (res.1, d :: res.2)

/-- `users_coll.update_one({"email": email}, {"$set": update_doc})`. -/
def update_one (st : Store) (email : String) (r : SignupRec) (pwd : String) : Nat × Store :=
  let res := updGo email r pwd st.docs
  (res.1, ⟨res.2, st.nextId⟩)

/-- Delete the first matching document; returns `deleted_count`. -/
def delGo (email : String) : List Doc → Nat × List Doc
  | [] => (0, [])
  | d :: ds =>
    if d.email == email then (1, ds)
    else
      let res := delGo email ds
      (res.1, d :: res.2)

/-- `users_coll.delete_one({"email": email})`. -/
def delete_one (st : Store) (email : String) : Nat × Store :=
  let res := delGo email st.docs
  (res.1, ⟨res.2, st.nextId⟩)

/-! ### Request bodies and normalization -/

/-- A submitted form field: a plain text value, or an upload carrying a file
name and binary content (Starlette's str vs UploadFile distinction). -/
inductive FormValue where
  | text (s : String)
  | file (filename : String) (content : List Nat)
deriving DecidableEq

abbrev Form := List (String × FormValue)

/-- The raw request body, per declared encoding. -/
inductive ReqBody where
  | json (fields : List (String × Value))
  | form (fields : Form)
deriving DecidableEq

def UPLOAD_DIR : String := "uploads"

/-- `os.path.join(UPLOAD_DIR, filename)` for the relative names the app
produces. -/
def pathJoin (a b : String) : String := a ++ "/" ++ b

/-- `await request.json()` result as a dict. -/
def jsonData (fields : List (String × Value)) : DataMap :=
  fields.foldl (fun d kv => setVal d kv.1 kv.2) []

/-- The signup form loop: a file-like field is written to
`uploads/<filename>` and replaced by that path; writing a file with an empty
name raises (opening the bare upload directory fails), modelled as `none`. -/
def signupFormGo (d : DataMap) : Form → Option DataMap
  | [] => some d
  | (k, .text t) :: rest => signupFormGo (setVal d k (.str t)) rest
  | (k, .file fn _) :: rest =>
    if fn == "" then none
    else signupFormGo (setVal d k (.str (pathJoin UPLOAD_DIR fn))) rest

/-- Responses of POST /signup. -/
inductive SignupResp where
  | unsupported
  | fault
  | validationFailed (details : List FieldError)
  | success (inserted_id : String)
deriving DecidableEq

/-- Content-type dispatch and body decoding of /signup (steps 1 of the
handler); `.fault` models an unhandled decoding exception (body does not
match the declared encoding, or a file write fails). -/
def normalizeSignup (ct : String) (body : ReqBody) : Except SignupResp DataMap :=
  if containsSub "application/json" ct then
    match body with
    | .json fs => .ok (jsonData fs)
    | .form _ => .error .fault
  else if containsSub "multipart/form-data" ct || containsSub "application/x-www-form-urlencoded" ct then
    match body with
    | .form fs =>
      match signupFormGo [] fs with
      | some d => .ok d
      | none => .error .fault
    | .json _ => .error .fault
  else .error .unsupported

/-- POST /signup: normalize, validate, hash the password with the per-call
salt, insert. -/
def signup (ct : String) (body : ReqBody) (salt : String) (st : Store) : SignupResp × Store :=
  match normalizeSignup ct body with
  | .error r => (r, st)
  | .ok data =>
    match signupModel data with
    | .error es => (.validationFailed es, st)
    | .ok valid =>
      let hashed := hashpw valid.password salt
      let res := insert_one st valid hashed
      (.success (toString res.1), res.2)

/-! ### JWT issuance (PyJWT model) -/

/-- The claim set the login handler signs: exactly `user_id`, `email` and
the absolute expiry `exp` (seconds). -/
structure JwtPayload where
  user_id : String
  email : String
  exp : Nat
deriving DecidableEq

/-- `os.environ.get("JWT_SECRET", "change_this_secret_in_prod")`. -/
def JWT_SECRET (env : Option String) : String := env.getD "change_this_secret_in_prod"

def JWT_ALGO : String := "HS256"

def JWT_EXPIRE_DAYS : Nat := 10

def SECONDS_PER_DAY : Nat := 86400

def encodePayload (p : JwtPayload) : String :=
  p.user_id ++ "|" ++ p.email ++ "|" ++ toString p.exp

/-- Model of `jwt.encode(payload, secret, algorithm)`: the encoded claim set
together with a symmetric signature derived from the secret and the
payload. -/
def jwtEncode (p : JwtPayload) (secret : String) (algo : String) : String :=
  encodePayload p ++ "." ++ algo ++ "." ++
    String.mk (mangleL (secret ++ encodePayload p).toList)

/-! ### POST /login -/

/-- The user object returned on success: the document without its password
field, `_id` stringified (dict order as built by the handler). -/
def userOut (d : Doc) : List (String × Value) :=
  [("_id", .str (toString d.oid)), ("firstName", .str d.firstName),
   ("lastName", .str d.lastName), ("age", .int d.age), ("email", .str d.email),
   ("mobileNo", .str d.mobileNo), ("profilePic", .str d.profilePic)]

inductive LoginResp where
  | failure (msg : String)
  | success (token : String) (user : List (String × Value))
  | fault (msg : String)
deriving DecidableEq

/-- Starlette `form.get(k)`: the last value bound to the key. -/
def formGet (fs : Form) (k : String) : Option FormValue :=
  fs.foldl (fun acc kv => if kv.1 == k then some kv.2 else acc) none

/-- Python falsiness of `form.get(k)`: missing or the empty string (an
UploadFile object is truthy). -/
def fvFalsy : Option FormValue → Bool
  | none => true
  | some (.text t) => t == ""
  | some (.file _ _) => false

/-- POST /login.  The store is read, never written.  `.fault` models the
unhandled exceptions of the handler: bcrypt's `ValueError` on a malformed
stored hash, bson refusing an UploadFile in the query, or `.encode` on an
UploadFile password. -/
def login (ct : String) (form : Form) (env : Option String) (now : Nat) (st : Store) : LoginResp :=
  if !containsSub "multipart/form-data" ct then .failure "invalid content-type"
  else
    let email? := formGet form "email"
    let password? := formGet form "password"
    if fvFalsy email? || fvFalsy password? then .failure "No email or password provided"
    else
      match email? with
      | some (.file _ _) => .fault "InvalidDocument"
      | none => .failure "No email or password provided"
      | some (.text email) =>
        match find_one st email with
        | none => .failure "invalid username"
        | some user =>
          if user.password == "" then .failure "invalid password"
          else
            match password? with
            | some (.text password) =>
              match checkpw password user.password with
              | .error e => .fault e
              | .ok false => .failure "invalid password"
              | .ok true =>
                .success
                  (jwtEncode ⟨toString user.oid, user.email,
                      now + JWT_EXPIRE_DAYS * SECONDS_PER_DAY⟩
                    (JWT_SECRET env) JWT_ALGO)
                  (userOut user)
            | _ => .fault "AttributeError"

/-! ### PUT /updateProfile -/

inductive UpdateResp where
  | failure (msg : String)
  | validationFailed (msg : String) (details : List FieldError)
  | success (msg : String)
deriving DecidableEq

/-- The update form loop: unlike signup, a file field with an empty file
name is skipped (treated as no file supplied); a named file is stored and
replaced by its path. -/
def updFormGo (d : DataMap) : Form → DataMap
  | [] => d
  | (k, .text t) :: rest => updFormGo (setVal d k (.str t)) rest
  | (k, .file fn _) :: rest =>
    if fn == "" then updFormGo d rest
    else updFormGo (setVal d k (.str (pathJoin UPLOAD_DIR fn))) rest

/-- Python truthiness of a dict value. -/
def vTruthy : Option Value → Bool
  | none => false
  | some (.str s) => !(s == "")
  | some (.int n) => !(n == 0)

/-- The normalized update submission (the handler's `data` dict). -/
def updData (form : Form) : DataMap := updFormGo [] form

/-- The submission after the profilePic merge step: if no profilePic entry
was submitted, the stored reference is copied in (the existing document
always carries the field). -/
def updData1 (form : Form) (existing_user : Doc) : DataMap :=
  if (getVal (updData form) "profilePic").isNone then
    setVal (updData form) "profilePic" (.str existing_user.profilePic)
  else updData form

/-- The submission after the password merge step, paired with the
`skip_hash` flag: an absent or empty password is replaced by the stored
(already hashed) password string and hashing is marked to be skipped. -/
def updMerged (form : Form) (existing_user : Doc) : DataMap × Bool :=
  if !vTruthy (getVal (updData1 form existing_user) "password") then
    (setVal (updData1 form existing_user) "password" (.str existing_user.password), true)
  else (updData1 form existing_user, false)

/-- PUT /updateProfile: require multipart, normalize, look up by email,
merge (keep stored profilePic when none submitted; keep the stored password
hash and skip hashing when the submitted password is absent or empty),
validate, conditionally hash, `$set`-update the first matching document.
The form decoder produces only string values, so the email entry, when
present, is a string (the int arm is unreachable). -/
def update_profile (ct : String) (form : Form) (salt : String) (st : Store) : UpdateResp × Store :=
  if !containsSub "multipart/form-data" ct then (.failure "invalid content-type", st)
  else
    match getVal (updData form) "email" with
    | some (.str email) =>
      if email == "" then (.failure "email is required to update profile", st)
      else
        match find_one st email with
        | none => (.failure "user not found", st)
        | some existing_user =>
          match signupModel (updMerged form existing_user).1 with
          | .error es => (.validationFailed "Validation failed" es, st)
          | .ok valid =>
            let pwd := if (updMerged form existing_user).2 then existing_user.password
                       else hashpw valid.password salt
            let res := update_one st email valid pwd
            if res.1 == 0 then (.failure "user not found for update", res.2)
            else (.success "Profile updated successfully", res.2)
    | _ => (.failure "email is required to update profile", st)

/-! ### DELETE /deleteProfile -/

inductive DeleteResp where
  | failure (msg : String)
  | success (msg : String)
deriving DecidableEq

/-- DELETE /deleteProfile?email=... -/
def delete_profile (email : String) (st : Store) : DeleteResp × Store :=
  if email == "" then (.failure "email is required", st)
  else
    match find_one st email with
    | none => (.failure "user not found", st)
    | some _ =>
      let res := delete_one st email
      if res.1 == 0 then (.failure "user not found", res.2)
      else (.success "Profile deleted successfully", res.2)

/-! ### Lemmas about the normalized mapping and the validator -/

lemma getVal_setVal_self (d : DataMap) (k : String) (v : Value) :
    getVal (setVal d k v) k = some v := by
  induction d with
  | nil => simp [setVal, getVal, List.find?]
  | cons kv rest ih =>
    obtain ⟨k', v'⟩ := kv
    by_cases h : (k' == k) = true
    · simp [setVal, h, getVal, List.find?]
    · simp only [setVal, h, Bool.false_eq_true, if_false]
      simpa [getVal, List.find?, h] using ih

lemma getVal_setVal_ne (d : DataMap) (k : String) (v : Value) (k' : String)
    (hne : k' ≠ k) : getVal (setVal d k v) k' = getVal d k' := by
  have hkk : (k == k') = false := beq_eq_false_iff_ne.mpr (fun h => hne h.symm)
  induction d with
  | nil => simp [setVal, getVal, List.find?, hkk]
  | cons kv rest ih =>
    obtain ⟨k0, v0⟩ := kv
    by_cases h : (k0 == k) = true
    · have hk0 : k0 = k := by simpa using h
      subst hk0
      simp [setVal, getVal, List.find?, hkk]
    · simp only [setVal, h, Bool.false_eq_true, if_false]
      by_cases h0 : (k0 == k') = true
      · simp [getVal, List.find?, h0]
      · simpa [getVal, List.find?, h0] using ih

lemma strField_error_field {d : DataMap} {n : String} {minL maxL : Nat} {e : FieldError}
    (h : strField d n minL maxL = .error e) : e.field = n := by
  unfold strField at h
  repeat' split at h
  all_goals
    first
      | (injection h with h1; subst h1; rfl)
      | exact Except.noConfusion h

lemma strMinField_error_field {d : DataMap} {n : String} {minL : Nat} {e : FieldError}
    (h : strMinField d n minL = .error e) : e.field = n := by
  unfold strMinField at h
  repeat' split at h
  all_goals
    first
      | (injection h with h1; subst h1; rfl)
      | exact Except.noConfusion h

lemma strAnyField_error_field {d : DataMap} {n : String} {e : FieldError}
    (h : strAnyField d n = .error e) : e.field = n := by
  unfold strAnyField at h
  repeat' split at h
  all_goals
    first
      | (injection h with h1; subst h1; rfl)
      | exact Except.noConfusion h

lemma intField_error_field {d : DataMap} {n : String} {lo hi : Int} {e : FieldError}
    (h : intField d n lo hi = .error e) : e.field = n := by
  unfold intField at h
  repeat' split at h
  all_goals
    first
      | (injection h with h1; subst h1; rfl)
      | exact Except.noConfusion h

lemma emailField_error_field {d : DataMap} {e : FieldError}
    (h : emailField d = .error e) : e.field = "email" := by
  unfold emailField at h
  repeat' split at h
  all_goals
    first
      | (injection h with h1; subst h1; rfl)
      | exact Except.noConfusion h

lemma strField_ok_getVal {d : DataMap} {n : String} {minL maxL : Nat} {s : String}
    (h : strField d n minL maxL = .ok s) : getVal d n = some (.str s) := by
  unfold strField at h
  repeat' split at h
  all_goals
    first
      | (injection h with h1; subst h1; assumption)
      | exact Except.noConfusion h

lemma strMinField_ok_getVal {d : DataMap} {n : String} {minL : Nat} {s : String}
    (h : strMinField d n minL = .ok s) : getVal d n = some (.str s) := by
  unfold strMinField at h
  repeat' split at h
  all_goals
    first
      | (injection h with h1; subst h1; assumption)
      | exact Except.noConfusion h

lemma strAnyField_ok_getVal {d : DataMap} {n : String} {s : String}
    (h : strAnyField d n = .ok s) : getVal d n = some (.str s) := by
  unfold strAnyField at h
  repeat' split at h
  all_goals
    first
      | (injection h with h1; subst h1; assumption)
      | exact Except.noConfusion h

lemma emailField_ok_getVal {d : DataMap} {s : String}
    (h : emailField d = .ok s) : getVal d "email" = some (.str s) := by
  unfold emailField at h
  repeat' split at h
  all_goals
    first
      | (injection h with h1; subst h1; assumption)
      | exact Except.noConfusion h

lemma signupModel_ok {d : DataMap} {r : SignupRec} (h : signupModel d = .ok r) :
    firstNameF d = .ok r.firstName ∧ lastNameF d = .ok r.lastName ∧
    ageF d = .ok r.age ∧ emailField d = .ok r.email ∧
    passwordF d = .ok r.password ∧ mobileF d = .ok r.mobileNo ∧
    picF d = .ok r.profilePic := by
  unfold signupModel at h
  split at h
  · injection h with h1
    subst h1
    refine ⟨?_, ?_, ?_, ?_, ?_, ?_, ?_⟩ <;> simp_all
  all_goals exact Except.noConfusion h

lemma signupModel_error_of_validate {d : DataMap} (h : validateSignup d ≠ []) :
    signupModel d = .error (validateSignup d) := by
  unfold signupModel
  split
  · exfalso
    simp_all [validateSignup, errL]
  all_goals rfl

lemma signupModel_error_eq {d : DataMap} {es : List FieldError}
    (h : signupModel d = .error es) : es = validateSignup d := by
  unfold signupModel at h
  split at h
  · exact Except.noConfusion h
  all_goals
    injection h with h1
    exact h1.symm

lemma errL_map_sublist {α : Type} (r : Except FieldError α) (n : String)
    (hf : ∀ e, r = .error e → e.field = n) :
    ((errL r).map (fun e => e.field)).Sublist [n] := by
  cases r with
  | ok a => simp [errL]
  | error e =>
    rw [show (errL (Except.error e : Except FieldError α)).map (fun e => e.field)
        = [e.field] from rfl, hf e rfl]

lemma validate_fields_nodup (d : DataMap) :
    ((validateSignup d).map (fun e => e.field)).Nodup := by
  have h1 := errL_map_sublist (firstNameF d) "firstName" (fun _ he => strField_error_field he)
  have h2 := errL_map_sublist (lastNameF d) "lastName" (fun _ he => strField_error_field he)
  have h3 := errL_map_sublist (ageF d) "age" (fun _ he => intField_error_field he)
  have h4 := errL_map_sublist (emailField d) "email" (fun _ he => emailField_error_field he)
  have h5 := errL_map_sublist (passwordF d) "password" (fun _ he => strMinField_error_field he)
  have h6 := errL_map_sublist (mobileF d) "mobileNo" (fun _ he => strField_error_field he)
  have h7 := errL_map_sublist (picF d) "profilePic" (fun _ he => strAnyField_error_field he)
  have hs : ((validateSignup d).map (fun e => e.field)).Sublist
      ["firstName", "lastName", "age", "email", "password", "mobileNo", "profilePic"] := by
    unfold validateSignup
    simp only [List.map_append]
    exact (((((h1.append h2).append h3).append h4).append h5).append h6).append h7
  exact List.Nodup.sublist hs (by decide)

lemma errL_eq_nil {α : Type} {r : Except FieldError α} (h : errL r = []) :
    ∃ a, r = .ok a := by
  cases r <;> simp_all [errL]

lemma validate_ne_nil_of_error {d : DataMap} {es : List FieldError}
    (h : signupModel d = .error es) : es ≠ [] := by
  have hes := signupModel_error_eq h
  subst hes
  intro hnil
  unfold validateSignup at hnil
  simp only [List.append_eq_nil] at hnil
  obtain ⟨⟨⟨⟨⟨⟨hn1, hn2⟩, hn3⟩, hn4⟩, hn5⟩, hn6⟩, hn7⟩ := hnil
  obtain ⟨a1, e1⟩ := errL_eq_nil hn1
  obtain ⟨a2, e2⟩ := errL_eq_nil hn2
  obtain ⟨a3, e3⟩ := errL_eq_nil hn3
  obtain ⟨a4, e4⟩ := errL_eq_nil hn4
  obtain ⟨a5, e5⟩ := errL_eq_nil hn5
  obtain ⟨a6, e6⟩ := errL_eq_nil hn6
  obtain ⟨a7, e7⟩ := errL_eq_nil hn7
  simp [signupModel, e1, e2, e3, e4, e5, e6, e7] at h

/-! ### Lemmas about the collection operations -/

lemma updGo_found {e : String} {r : SignupRec} {pwd : String} (hre : r.email = e) :
    ∀ (ds : List Doc) (ex : Doc), ds.find? (fun d => d.email == e) = some ex →
      (updGo e r pwd ds).1 = 1 ∧
      (updGo e r pwd ds).2.find? (fun d => d.email == e) = some (docUpd ex r pwd) := by
  intro ds
  induction ds with
  | nil => intro ex h; simp [List.find?] at h
  | cons d ds ih =>
    intro ex h
    by_cases hd : (d.email == e) = true
    · simp only [List.find?, hd, Option.some.injEq] at h
      subst h
      refine ⟨by simp [updGo, hd], ?_⟩
      have hup : ((docUpd d r pwd).email == e) = true := by simp [docUpd, hre]
      simp [updGo, hd, List.find?, hup]
    · simp only [List.find?, hd, Bool.false_eq_true] at h
      have ihh := ih ex h
      refine ⟨by simp [updGo, hd, ihh.1], ?_⟩
      simp only [updGo, hd, Bool.false_eq_true, if_false]
      simpa [List.find?, hd] using ihh.2

lemma updGo_password_mem {e : String} {r : SignupRec} {pwd : String} :
    ∀ (ds : List Doc) (x : Doc), x ∈ (updGo e r pwd ds).2 → x ∈ ds ∨ x.password = pwd := by
  intro ds
  induction ds with
  | nil => intro x hx; simp [updGo] at hx
  | cons d ds ih =>
    intro x hx
    by_cases hd : (d.email == e) = true
    · simp only [updGo, hd, if_true] at hx
      rcases List.mem_cons.mp hx with h | h
      · right; subst h; rfl
      · left; exact List.mem_cons_of_mem _ h
    · simp only [updGo, hd, Bool.false_eq_true, if_false] at hx
      rcases List.mem_cons.mp hx with h | h
      · left; subst h; exact List.mem_cons_self _ _
      · rcases ih x h with h' | h'
        · left; exact List.mem_cons_of_mem _ h'
        · right; exact h'

lemma delGo_found {e : String} :
    ∀ (ds : List Doc) (ex : Doc), ds.find? (fun d => d.email == e) = some ex →
      (delGo e ds).1 = 1 ∧
      (delGo e ds).2.countP (fun d => d.email == e) =
        ds.countP (fun d => d.email == e) - 1 := by
  intro ds
  induction ds with
  | nil => intro ex h; simp [List.find?] at h
  | cons d ds ih =>
    intro ex h
    by_cases hd : (d.email == e) = true
    · refine ⟨by simp [delGo, hd], ?_⟩
      simp only [delGo, hd, if_true]
      simp [List.countP_cons, hd]
    · simp only [List.find?, hd, Bool.false_eq_true] at h
      have ihh := ih ex h
      refine ⟨by simp [delGo, hd, ihh.1], ?_⟩
      simp only [delGo, hd, Bool.false_eq_true, if_false]
      have hcnt : ∀ l : List Doc, (d :: l).countP (fun d => d.email == e) =
          l.countP (fun d => d.email == e) := by
        intro l; exact List.countP_cons_of_neg _ _ hd
      rw [hcnt, hcnt]
      have hge : 1 ≤ ds.countP (fun d => d.email == e) := by
        have hmem := List.mem_of_find?_eq_some h
        have hp := List.find?_some h
        calc 1 = [ex].countP (fun d => d.email == e) := by simp [hp]
        _ ≤ ds.countP (fun d => d.email == e) := by
            apply List.Sublist.countP_le
            simpa using hmem
      omega

lemma find?_none_of_countP_zero {p : Doc → Bool} {l : List Doc}
    (h : l.countP p = 0) : l.find? p = none := by
  rw [List.countP_eq_zero] at h
  exact List.find?_eq_none.mpr h

/-! ### Lemmas unfolding the login handler -/

lemma login_invalid_username {ct : String} {form : Form} {env : Option String}
    {now : Nat} {st : Store} {e p : String}
    (hct : containsSub "multipart/form-data" ct = true)
    (he : formGet form "email" = some (.text e)) (hne : e ≠ "")
    (hp : formGet form "password" = some (.text p)) (hpne : p ≠ "")
    (hfind : find_one st e = none) :
    login ct form env now st = .failure "invalid username" := by
  have he0 : (e == "") = false := beq_eq_false_iff_ne.mpr hne
  have hp0 : (p == "") = false := beq_eq_false_iff_ne.mpr hpne
  simp [login, hct, he, hp, fvFalsy, he0, hp0, hfind]

lemma login_pw_empty {ct : String} {form : Form} {env : Option String}
    {now : Nat} {st : Store} {e p : String} {u : Doc}
    (hct : containsSub "multipart/form-data" ct = true)
    (he : formGet form "email" = some (.text e)) (hne : e ≠ "")
    (hp : formGet form "password" = some (.text p)) (hpne : p ≠ "")
    (hfind : find_one st e = some u) (hpw : u.password = "") :
    login ct form env now st = .failure "invalid password" := by
  have he0 : (e == "") = false := beq_eq_false_iff_ne.mpr hne
  have hp0 : (p == "") = false := beq_eq_false_iff_ne.mpr hpne
  simp [login, hct, he, hp, fvFalsy, he0, hp0, hfind, hpw]

lemma login_pw_fault {ct : String} {form : Form} {env : Option String}
    {now : Nat} {st : Store} {e p msg : String} {u : Doc}
    (hct : containsSub "multipart/form-data" ct = true)
    (he : formGet form "email" = some (.text e)) (hne : e ≠ "")
    (hp : formGet form "password" = some (.text p)) (hpne : p ≠ "")
    (hfind : find_one st e = some u) (hpw : u.password ≠ "")
    (hchk : checkpw p u.password = .error msg) :
    login ct form env now st = .fault msg := by
  have he0 : (e == "") = false := beq_eq_false_iff_ne.mpr hne
  have hp0 : (p == "") = false := beq_eq_false_iff_ne.mpr hpne
  have hpw0 : (u.password == "") = false := beq_eq_false_iff_ne.mpr hpw
  simp [login, hct, he, hp, fvFalsy, he0, hp0, hfind, hpw0, hchk]

lemma login_pw_wrong {ct : String} {form : Form} {env : Option String}
    {now : Nat} {st : Store} {e p : String} {u : Doc}
    (hct : containsSub "multipart/form-data" ct = true)
    (he : formGet form "email" = some (.text e)) (hne : e ≠ "")
    (hp : formGet form "password" = some (.text p)) (hpne : p ≠ "")
    (hfind : find_one st e = some u) (hpw : u.password ≠ "")
    (hchk : checkpw p u.password = .ok false) :
    login ct form env now st = .failure "invalid password" := by
  have he0 : (e == "") = false := beq_eq_false_iff_ne.mpr hne
  have hp0 : (p == "") = false := beq_eq_false_iff_ne.mpr hpne
  have hpw0 : (u.password == "") = false := beq_eq_false_iff_ne.mpr hpw
  simp [login, hct, he, hp, fvFalsy, he0, hp0, hfind, hpw0, hchk]

lemma login_pw_ok {ct : String} {form : Form} {env : Option String}
    {now : Nat} {st : Store} {e p : String} {u : Doc}
    (hct : containsSub "multipart/form-data" ct = true)
    (he : formGet form "email" = some (.text e)) (hne : e ≠ "")
    (hp : formGet form "password" = some (.text p)) (hpne : p ≠ "")
    (hfind : find_one st e = some u) (hpw : u.password ≠ "")
    (hchk : checkpw p u.password = .ok true) :
    login ct form env now st =
      .success
        (jwtEncode ⟨toString u.oid, u.email, now + JWT_EXPIRE_DAYS * SECONDS_PER_DAY⟩
          (JWT_SECRET env) JWT_ALGO)
        (userOut u) := by
  have he0 : (e == "") = false := beq_eq_false_iff_ne.mpr hne
  have hp0 : (p == "") = false := beq_eq_false_iff_ne.mpr hpne
  have hpw0 : (u.password == "") = false := beq_eq_false_iff_ne.mpr hpw
  simp [login, hct, he, hp, fvFalsy, he0, hp0, hfind, hpw0, hchk]

/-- Every store the update endpoint can return is either the input store or
the result of a single update_one whose written password is the existing
document's stored password (hashing skipped) or a fresh hash. -/
lemma update_profile_store_cases (ct : String) (form : Form) (salt : String) (st : Store) :
    (update_profile ct form salt st).2 = st ∨
    ∃ email valid existing_user pwd,
      find_one st email = some existing_user ∧
      (pwd = existing_user.password ∨ pwd = hashpw valid.password salt) ∧
      (update_profile ct form salt st).2 = (update_one st email valid pwd).2 := by
  unfold update_profile
  split
  · left; rfl
  · dsimp only
    split
    · rename_i email heq
      split
      · left; rfl
      · split
        · left; rfl
        · rename_i existing_user hfind
          split
          · left; rfl
          · rename_i valid hvalid
            right
            repeat' split
            all_goals refine ⟨email, valid, existing_user, _, hfind, ?_, rfl⟩
            all_goals first | exact Or.inl rfl | exact Or.inr rfl
    · left; rfl

/-! ### Claim theorems -/

/-- C1: for every signup submission whose normalized mapping violates one or
more field constraints of the UserRecord schema, the signup endpoint returns
the validation-failure response carrying the full list of per-field error
indicators (all violations collected, in model field order, at most one per
field — the mapped field names are nodup), and the store is unchanged (no
record inserted). -/
theorem signup_collects_all_validation_errors
    (ct : String) (body : ReqBody) (data : DataMap) (salt : String) (st : Store)
    (hnorm : normalizeSignup ct body = .ok data)
    (hbad : validateSignup data ≠ []) :
    signup ct body salt st = (.validationFailed (validateSignup data), st) ∧
    ((validateSignup data).map (fun e => e.field)).Nodup := by
  refine ⟨?_, validate_fields_nodup data⟩
  simp [signup, hnorm, signupModel_error_of_validate hbad]

/-- Witness for C1: a JSON signup payload violating firstName, lastName,
age, email, password, mobileNo and profilePic constraints at once. -/
theorem signup_collects_all_validation_errors_witness :
    signup "application/json"
        (.json [("firstName", .str "J"), ("age", .int 0), ("email", .str "bad"),
          ("password", .str "12345")]) "s" ⟨[], 0⟩ =
      (.validationFailed (validateSignup (jsonData [("firstName", .str "J"),
        ("age", .int 0), ("email", .str "bad"), ("password", .str "12345")])), ⟨[], 0⟩) ∧
    ((validateSignup (jsonData [("firstName", .str "J"), ("age", .int 0),
      ("email", .str "bad"), ("password", .str "12345")])).map (fun e => e.field)).Nodup :=
  signup_collects_all_validation_errors _ _ _ _ _ rfl (by decide)

/-- C9: a signup request whose declared content type indicates neither JSON
nor form encoding (URL-encoded or multipart) is answered with the
unsupported-content-type response and the store is untouched (no validation
or insertion); login and update reject any non-multipart content type with
their failure response before reading the body, also leaving the store
untouched. -/
theorem unsupported_content_type_rejected :
    (∀ (ct : String) (body : ReqBody) (salt : String) (st : Store),
      containsSub "application/json" ct = false →
      containsSub "multipart/form-data" ct = false →
      containsSub "application/x-www-form-urlencoded" ct = false →
      signup ct body salt st = (.unsupported, st)) ∧
    (∀ (ct : String) (form : Form) (env : Option String) (now : Nat) (st : Store),
      containsSub "multipart/form-data" ct = false →
      login ct form env now st = .failure "invalid content-type") ∧
    (∀ (ct : String) (form : Form) (salt : String) (st : Store),
      containsSub "multipart/form-data" ct = false →
      update_profile ct form salt st = (.failure "invalid content-type", st)) := by
  refine ⟨?_, ?_, ?_⟩
  · intro ct body salt st h1 h2 h3
    simp [signup, normalizeSignup, h1, h2, h3]
  · intro ct form env now st h
    simp [login, h]
  · intro ct form salt st h
    simp [update_profile, h]

/-- Witness for C9: a text/plain request is rejected by all three
endpoints. -/
theorem unsupported_content_type_rejected_witness :
    signup "text/plain" (.form [("email", .text "jo@ex.com")]) "s" ⟨[], 0⟩ =
      (.unsupported, ⟨[], 0⟩) ∧
    login "text/plain" [("email", .text "jo@ex.com")] none 0 ⟨[], 0⟩ =
      .failure "invalid content-type" ∧
    update_profile "text/plain" [("email", .text "jo@ex.com")] "s" ⟨[], 0⟩ =
      (.failure "invalid content-type", ⟨[], 0⟩) :=
  ⟨unsupported_content_type_rejected.1 _ _ _ _ (by decide) (by decide) (by decide),
   unsupported_content_type_rejected.2.1 _ _ _ _ _ (by decide),
   unsupported_content_type_rejected.2.2 _ _ _ _ (by decide)⟩

/-- C10: signup performs no duplicate-email check: a valid payload is
inserted unconditionally, whatever the store already contains; running the
same valid signup twice yields two success responses and leaves two stored
records sharing the payload's email. -/
theorem signup_no_duplicate_check
    (ct : String) (body : ReqBody) (data : DataMap) (r : SignupRec)
    (salt salt2 : String) (st : Store)
    (hnorm : normalizeSignup ct body = .ok data)
    (hmodel : signupModel data = .ok r) :
    (signup ct body salt st).1 = .success (toString st.nextId) ∧
    (signup ct body salt2 (signup ct body salt st).2).1 =
      .success (toString (signup ct body salt st).2.nextId) ∧
    (signup ct body salt2 (signup ct body salt st).2).2.docs.countP
        (fun d => d.email == r.email) =
      st.docs.countP (fun d => d.email == r.email) + 2 := by
  refine ⟨?_, ?_, ?_⟩ <;>
    simp [signup, hnorm, hmodel, insert_one, docOfRec, List.countP_append, List.countP_cons]

/-- Witness for C10: the same valid signup runs twice against an initially
empty store; both succeed and the store ends with two records under the same
email. -/
theorem signup_no_duplicate_check_witness :
    (signup "application/json"
        (.json [("firstName", .str "Jona"), ("lastName", .str "Doe"), ("age", .int 30),
          ("email", .str "jo@ex.com"), ("password", .str "secret1"),
          ("mobileNo", .str "0123456789"), ("profilePic", .str "p.png")]) "sa" ⟨[], 0⟩).1 =
      .success "0" ∧
    (signup "application/json"
        (.json [("firstName", .str "Jona"), ("lastName", .str "Doe"), ("age", .int 30),
          ("email", .str "jo@ex.com"), ("password", .str "secret1"),
          ("mobileNo", .str "0123456789"), ("profilePic", .str "p.png")]) "sb"
      (signup "application/json"
        (.json [("firstName", .str "Jona"), ("lastName", .str "Doe"), ("age", .int 30),
          ("email", .str "jo@ex.com"), ("password", .str "secret1"),
          ("mobileNo", .str "0123456789"), ("profilePic", .str "p.png")]) "sa" ⟨[], 0⟩).2).1 =
      .success "1" ∧
    (signup "application/json"
        (.json [("firstName", .str "Jona"), ("lastName", .str "Doe"), ("age", .int 30),
          ("email", .str "jo@ex.com"), ("password", .str "secret1"),
          ("mobileNo", .str "0123456789"), ("profilePic", .str "p.png")]) "sb"
      (signup "application/json"
        (.json [("firstName", .str "Jona"), ("lastName", .str "Doe"), ("age", .int 30),
          ("email", .str "jo@ex.com"), ("password", .str "secret1"),
          ("mobileNo", .str "0123456789"), ("profilePic", .str "p.png")]) "sa"
        ⟨[], 0⟩).2).2.docs.countP (fun d => d.email == "jo@ex.com") = 2 :=
  signup_no_duplicate_check "application/json"
    (.json [("firstName", .str "Jona"), ("lastName", .str "Doe"), ("age", .int 30),
      ("email", .str "jo@ex.com"), ("password", .str "secret1"),
      ("mobileNo", .str "0123456789"), ("profilePic", .str "p.png")])
    (jsonData [("firstName", .str "Jona"), ("lastName", .str "Doe"), ("age", .int 30),
      ("email", .str "jo@ex.com"), ("password", .str "secret1"),
      ("mobileNo", .str "0123456789"), ("profilePic", .str "p.png")])
    ⟨"Jona", "Doe", 30, "jo@ex.com", "secret1", "0123456789", "p.png"⟩ "sa" "sb" ⟨[], 0⟩
    rfl rfl

/-- C2: after every write path, the stored password field is a bcrypt hash
string and never the submitted plaintext.  For a valid signup payload the
inserted document's password is the bcrypt hash of the submitted plaintext,
differs from that plaintext, and verifying the plaintext against it
succeeds; and both signup and update preserve the store-wide invariant that
every stored password is a well-formed hash string (the update path writes
either the previously stored hash or a fresh hash). -/
theorem stored_password_always_hashed :
    (∀ (ct : String) (body : ReqBody) (data : DataMap) (r : SignupRec)
        (salt : String) (st : Store),
      normalizeSignup ct body = .ok data → signupModel data = .ok r →
      signup ct body salt st =
        (.success (toString st.nextId),
          ⟨st.docs ++ [docOfRec r (hashpw r.password salt) st.nextId], st.nextId + 1⟩) ∧
      getVal data "password" = some (.str r.password) ∧
      (docOfRec r (hashpw r.password salt) st.nextId).password = hashpw r.password salt ∧
      hashpw r.password salt ≠ r.password ∧
      checkpw r.password (hashpw r.password salt) = .ok true) ∧
    (∀ (ct : String) (body : ReqBody) (salt : String) (st : Store),
      (∀ x ∈ st.docs, isHashStr x.password = true) →
      ∀ x ∈ (signup ct body salt st).2.docs, isHashStr x.password = true) ∧
    (∀ (ct : String) (form : Form) (salt : String) (st : Store),
      (∀ x ∈ st.docs, isHashStr x.password = true) →
      ∀ x ∈ (update_profile ct form salt st).2.docs, isHashStr x.password = true) := by
  refine ⟨?_, ?_, ?_⟩
  · intro ct body data r salt st hnorm hmodel
    refine ⟨by simp [signup, hnorm, hmodel, insert_one], ?_, rfl, hashpw_ne _ _,
      checkpw_hashpw _ _⟩
    exact strMinField_ok_getVal (signupModel_ok hmodel).2.2.2.2.1
  · intro ct body salt st hinv x hx
    rcases hn : normalizeSignup ct body with r | d
    · simp only [signup, hn] at hx
      exact hinv x hx
    · rcases hm : signupModel d with es | valid
      · simp only [signup, hn, hm] at hx
        exact hinv x hx
      · simp only [signup, hn, hm, insert_one] at hx
        rcases List.mem_append.mp hx with h | h
        · exact hinv x h
        · simp only [List.mem_singleton] at h
          subst h
          exact isHashStr_hashpw _ _
  · intro ct form salt st hinv x hx
    rcases update_profile_store_cases ct form salt st with h |
      ⟨email, valid, existing_user, pwd, hfind, hpwd, h⟩
    · rw [h] at hx
      exact hinv x hx
    · rw [h] at hx
      simp only [update_one] at hx
      rcases updGo_password_mem st.docs x hx with hmem | hpw
      · exact hinv x hmem
      · rcases hpwd with h1 | h1
        · rw [hpw, h1]
          exact hinv existing_user (List.mem_of_find?_eq_some hfind)
        · rw [hpw, h1]
          exact isHashStr_hashpw _ _

/-- Witness for C2: a concrete valid JSON signup against the empty store,
the hash invariant carried through that signup, and through an update that
replaces the password. -/
theorem stored_password_always_hashed_witness :
    (signup "application/json"
        (.json [("firstName", .str "Jona"), ("lastName", .str "Doe"), ("age", .int 30),
          ("email", .str "jo@ex.com"), ("password", .str "secret1"),
          ("mobileNo", .str "0123456789"), ("profilePic", .str "p.png")]) "sa" ⟨[], 0⟩ =
      (.success "0",
        ⟨[docOfRec ⟨"Jona", "Doe", 30, "jo@ex.com", "secret1", "0123456789", "p.png"⟩
            (hashpw "secret1" "sa") 0], 1⟩) ∧
      getVal (jsonData [("firstName", .str "Jona"), ("lastName", .str "Doe"),
          ("age", .int 30), ("email", .str "jo@ex.com"), ("password", .str "secret1"),
          ("mobileNo", .str "0123456789"), ("profilePic", .str "p.png")]) "password" =
        some (.str "secret1") ∧
      (docOfRec ⟨"Jona", "Doe", 30, "jo@ex.com", "secret1", "0123456789", "p.png"⟩
          (hashpw "secret1" "sa") 0).password = hashpw "secret1" "sa" ∧
      hashpw "secret1" "sa" ≠ "secret1" ∧
      checkpw "secret1" (hashpw "secret1" "sa") = .ok true) ∧
    isHashStr (docOfRec ⟨"Jona", "Doe", 30, "jo@ex.com", "secret1", "0123456789", "p.png"⟩
        (hashpw "secret1" "sa") 0).password = true ∧
    isHashStr (docUpd
        ⟨0, "Jona", "Doe", 30, "jo@ex.com", hashpw "secret1" "sa", "0123456789", "p.png"⟩
        ⟨"Jona", "Doe", 30, "jo@ex.com", "newpass7", "0123456789", "p.png"⟩
        (hashpw "newpass7" "s2")).password = true :=
  ⟨stored_password_always_hashed.1 "application/json"
      (.json [("firstName", .str "Jona"), ("lastName", .str "Doe"), ("age", .int 30),
        ("email", .str "jo@ex.com"), ("password", .str "secret1"),
        ("mobileNo", .str "0123456789"), ("profilePic", .str "p.png")])
      (jsonData [("firstName", .str "Jona"), ("lastName", .str "Doe"), ("age", .int 30),
        ("email", .str "jo@ex.com"), ("password", .str "secret1"),
        ("mobileNo", .str "0123456789"), ("profilePic", .str "p.png")])
      ⟨"Jona", "Doe", 30, "jo@ex.com", "secret1", "0123456789", "p.png"⟩ "sa" ⟨[], 0⟩
      rfl rfl,
   stored_password_always_hashed.2.1 "application/json"
      (.json [("firstName", .str "Jona"), ("lastName", .str "Doe"), ("age", .int 30),
        ("email", .str "jo@ex.com"), ("password", .str "secret1"),
        ("mobileNo", .str "0123456789"), ("profilePic", .str "p.png")]) "sa" ⟨[], 0⟩
      (by simp)
      (docOfRec ⟨"Jona", "Doe", 30, "jo@ex.com", "secret1", "0123456789", "p.png"⟩
        (hashpw "secret1" "sa") 0)
      (by decide),
   stored_password_always_hashed.2.2 "multipart/form-data"
      [("firstName", .text "Jona"), ("lastName", .text "Doe"), ("age", .text "30"),
        ("email", .text "jo@ex.com"), ("password", .text "newpass7"),
        ("mobileNo", .text "0123456789"), ("profilePic", .text "p.png")] "s2"
      ⟨[⟨0, "Jona", "Doe", 30, "jo@ex.com", hashpw "secret1" "sa", "0123456789", "p.png"⟩], 1⟩
      (by intro x hx
          simp only [List.mem_singleton] at hx
          subst hx
          exact isHashStr_hashpw _ _)
      (docUpd ⟨0, "Jona", "Doe", 30, "jo@ex.com", hashpw "secret1" "sa", "0123456789", "p.png"⟩
        ⟨"Jona", "Doe", 30, "jo@ex.com", "newpass7", "0123456789", "p.png"⟩
        (hashpw "newpass7" "s2"))
      (by decide)⟩

/-- C3: for every multipart login request carrying a nonempty email and
password: no matching record gives the failure "invalid username"; a
matching record whose stored hash does not verify the submitted password
gives the failure "invalid password"; successful verification gives the
signed token together with the user record with the password field
removed. -/
theorem login_outcomes (ct : String) (form : Form) (env : Option String)
    (now : Nat) (st : Store) (e p : String)
    (hct : containsSub "multipart/form-data" ct = true)
    (he : formGet form "email" = some (.text e)) (hne : e ≠ "")
    (hp : formGet form "password" = some (.text p)) (hpne : p ≠ "") :
    (find_one st e = none → login ct form env now st = .failure "invalid username") ∧
    (∀ u, find_one st e = some u → u.password ≠ "" → checkpw p u.password = .ok false →
      login ct form env now st = .failure "invalid password") ∧
    (∀ u, find_one st e = some u → u.password ≠ "" → checkpw p u.password = .ok true →
      login ct form env now st =
        .success
          (jwtEncode ⟨toString u.oid, u.email, now + JWT_EXPIRE_DAYS * SECONDS_PER_DAY⟩
            (JWT_SECRET env) JWT_ALGO)
          (userOut u) ∧
      ∀ kv ∈ userOut u, kv.1 ≠ "password") := by
  refine ⟨fun hf => login_invalid_username hct he hne hp hpne hf,
    fun u hf hpw hchk => login_pw_wrong hct he hne hp hpne hf hpw hchk,
    fun u hf hpw hchk => ⟨login_pw_ok hct he hne hp hpne hf hpw hchk, ?_⟩⟩
  intro kv hkv
  simp only [userOut, List.mem_cons, List.not_mem_nil, or_false] at hkv
  rcases hkv with h | h | h | h | h | h | h <;> (subst h; simp)

/-- Witness for C3: the three login outcomes on concrete stores. -/
theorem login_outcomes_witness :
    login "multipart/form-data" [("email", .text "jo@ex.com"), ("password", .text "secret1")]
      none 0 ⟨[], 0⟩ = .failure "invalid username" ∧
    login "multipart/form-data" [("email", .text "jo@ex.com"), ("password", .text "wrong12")]
      none 0 ⟨[⟨0, "Jona", "Doe", 30, "jo@ex.com", hashpw "secret1" "sa",
        "0123456789", "p.png"⟩], 1⟩ = .failure "invalid password" ∧
    login "multipart/form-data" [("email", .text "jo@ex.com"), ("password", .text "secret1")]
      none 0 ⟨[⟨0, "Jona", "Doe", 30, "jo@ex.com", hashpw "secret1" "sa",
        "0123456789", "p.png"⟩], 1⟩ =
      .success
        (jwtEncode ⟨"0", "jo@ex.com", 0 + JWT_EXPIRE_DAYS * SECONDS_PER_DAY⟩
          (JWT_SECRET none) JWT_ALGO)
        (userOut ⟨0, "Jona", "Doe", 30, "jo@ex.com", hashpw "secret1" "sa",
          "0123456789", "p.png"⟩) ∧
    (("password", Value.str "secret1") ∈
        userOut ⟨0, "Jona", "Doe", 30, "jo@ex.com", hashpw "secret1" "sa",
          "0123456789", "p.png"⟩ → False) :=
  ⟨(login_outcomes "multipart/form-data"
      [("email", .text "jo@ex.com"), ("password", .text "secret1")] none 0 ⟨[], 0⟩
      "jo@ex.com" "secret1" rfl rfl (by decide) rfl (by decide)).1 rfl,
   (login_outcomes "multipart/form-data"
      [("email", .text "jo@ex.com"), ("password", .text "wrong12")] none 0
      ⟨[⟨0, "Jona", "Doe", 30, "jo@ex.com", hashpw "secret1" "sa", "0123456789", "p.png"⟩], 1⟩
      "jo@ex.com" "wrong12" rfl rfl (by decide) rfl (by decide)).2.1
      ⟨0, "Jona", "Doe", 30, "jo@ex.com", hashpw "secret1" "sa", "0123456789", "p.png"⟩
      rfl (by decide) rfl,
   ((login_outcomes "multipart/form-data"
      [("email", .text "jo@ex.com"), ("password", .text "secret1")] none 0
      ⟨[⟨0, "Jona", "Doe", 30, "jo@ex.com", hashpw "secret1" "sa", "0123456789", "p.png"⟩], 1⟩
      "jo@ex.com" "secret1" rfl rfl (by decide) rfl (by decide)).2.2
      ⟨0, "Jona", "Doe", 30, "jo@ex.com", hashpw "secret1" "sa", "0123456789", "p.png"⟩
      rfl (by decide) (checkpw_hashpw "secret1" "sa")).1,
   fun hmem =>
     ((login_outcomes "multipart/form-data"
      [("email", .text "jo@ex.com"), ("password", .text "secret1")] none 0
      ⟨[⟨0, "Jona", "Doe", 30, "jo@ex.com", hashpw "secret1" "sa", "0123456789", "p.png"⟩], 1⟩
      "jo@ex.com" "secret1" rfl rfl (by decide) rfl (by decide)).2.2
      ⟨0, "Jona", "Doe", 30, "jo@ex.com", hashpw "secret1" "sa", "0123456789", "p.png"⟩
      rfl (by decide) (checkpw_hashpw "secret1" "sa")).2
      ("password", Value.str "secret1") hmem rfl⟩

/-- C7: the token issued by a successful login is produced by the HS256
signing model from the server secret (the environment value, defaulting to
the insecure placeholder when unset) over a payload containing exactly the
identity reference, the email, and an expiry equal to issuance time plus 10
days. -/
theorem login_token_contract :
    (∀ (ct : String) (form : Form) (env : Option String) (now : Nat) (st : Store)
        (e p : String) (u : Doc),
      containsSub "multipart/form-data" ct = true →
      formGet form "email" = some (.text e) → e ≠ "" →
      formGet form "password" = some (.text p) → p ≠ "" →
      find_one st e = some u → u.password ≠ "" → checkpw p u.password = .ok true →
      login ct form env now st =
        .success
          (jwtEncode ⟨toString u.oid, u.email, now + JWT_EXPIRE_DAYS * SECONDS_PER_DAY⟩
            (JWT_SECRET env) JWT_ALGO)
          (userOut u)) ∧
    JWT_SECRET none = "change_this_secret_in_prod" ∧
    (∀ s, JWT_SECRET (some s) = s) ∧
    JWT_ALGO = "HS256" ∧
    JWT_EXPIRE_DAYS = 10 ∧
    JWT_EXPIRE_DAYS * SECONDS_PER_DAY = 10 * 86400 := by
  refine ⟨?_, rfl, fun s => rfl, rfl, rfl, rfl⟩
  intro ct form env now st e p u hct he hne hp hpne hfind hpw hchk
  exact login_pw_ok hct he hne hp hpne hfind hpw hchk

/-- Witness for C7: a successful concrete login yields exactly the modelled
token. -/
theorem login_token_contract_witness :
    login "multipart/form-data" [("email", .text "jo@ex.com"), ("password", .text "secret1")]
      (some "mysecret") 1000
      ⟨[⟨7, "Jona", "Doe", 30, "jo@ex.com", hashpw "secret1" "sa", "0123456789", "p.png"⟩], 8⟩ =
      .success
        (jwtEncode ⟨"7", "jo@ex.com", 1000 + JWT_EXPIRE_DAYS * SECONDS_PER_DAY⟩
          (JWT_SECRET (some "mysecret")) JWT_ALGO)
        (userOut ⟨7, "Jona", "Doe", 30, "jo@ex.com", hashpw "secret1" "sa",
          "0123456789", "p.png"⟩) :=
  login_token_contract.1 "multipart/form-data"
    [("email", .text "jo@ex.com"), ("password", .text "secret1")] (some "mysecret") 1000
    ⟨[⟨7, "Jona", "Doe", 30, "jo@ex.com", hashpw "secret1" "sa", "0123456789", "p.png"⟩], 8⟩
    "jo@ex.com" "secret1"
    ⟨7, "Jona", "Doe", 30, "jo@ex.com", hashpw "secret1" "sa", "0123456789", "p.png"⟩
    rfl rfl (by decide) rfl (by decide) rfl (by decide) (checkpw_hashpw "secret1" "sa")

/-- C4 counterexample: a stored record whose password field is a non-empty
malformed hash ("nothash").  The login handler does not catch bcrypt's
`ValueError("Invalid salt")`, so the response is an unhandled fault, not the
"invalid password" failure the claim requires. -/
theorem login_malformed_hash_counterexample :
    login "multipart/form-data" [("email", .text "jo@ex.com"), ("password", .text "secret1")]
      none 0 ⟨[⟨0, "Jona", "Doe", 30, "jo@ex.com", "nothash", "0123456789", "p.png"⟩], 1⟩ =
      .fault "Invalid salt" ∧
    LoginResp.fault "Invalid salt" ≠ .failure "invalid password" := by
  decide

/-- C4 amended: on a matched record, an absent or empty stored hash yields
the "invalid password" failure, but a non-empty malformed stored hash makes
bcrypt verification raise `ValueError("Invalid salt")`, which the handler
does not catch (an unhandled fault, not an "invalid password" response). -/
theorem login_stored_hash_failure_modes (ct : String) (form : Form)
    (env : Option String) (now : Nat) (st : Store) (e p : String) (u : Doc)
    (hct : containsSub "multipart/form-data" ct = true)
    (he : formGet form "email" = some (.text e)) (hne : e ≠ "")
    (hp : formGet form "password" = some (.text p)) (hpne : p ≠ "")
    (hfind : find_one st e = some u) :
    (u.password = "" → login ct form env now st = .failure "invalid password") ∧
    (u.password ≠ "" → parseHash u.password = none →
      login ct form env now st = .fault "Invalid salt") := by
  refine ⟨fun hpw => login_pw_empty hct he hne hp hpne hfind hpw, fun hpw hmal => ?_⟩
  have hchk : checkpw p u.password = .error "Invalid salt" := by simp [checkpw, hmal]
  exact login_pw_fault hct he hne hp hpne hfind hpw hchk

/-- Witness for the amended C4: an empty stored hash gives "invalid
password"; the malformed stored hash "zzz" gives the uncaught fault. -/
theorem login_stored_hash_failure_modes_witness :
    login "multipart/form-data" [("email", .text "jo@ex.com"), ("password", .text "secret1")]
      none 0 ⟨[⟨0, "Jona", "Doe", 30, "jo@ex.com", "", "0123456789", "p.png"⟩], 1⟩ =
      .failure "invalid password" ∧
    login "multipart/form-data" [("email", .text "jo@ex.com"), ("password", .text "secret1")]
      none 0 ⟨[⟨0, "Jona", "Doe", 30, "jo@ex.com", "zzz", "0123456789", "p.png"⟩], 1⟩ =
      .fault "Invalid salt" :=
  ⟨(login_stored_hash_failure_modes "multipart/form-data"
      [("email", .text "jo@ex.com"), ("password", .text "secret1")] none 0
      ⟨[⟨0, "Jona", "Doe", 30, "jo@ex.com", "", "0123456789", "p.png"⟩], 1⟩
      "jo@ex.com" "secret1"
      ⟨0, "Jona", "Doe", 30, "jo@ex.com", "", "0123456789", "p.png"⟩
      rfl rfl (by decide) rfl (by decide) rfl).1 rfl,
   (login_stored_hash_failure_modes "multipart/form-data"
      [("email", .text "jo@ex.com"), ("password", .text "secret1")] none 0
      ⟨[⟨0, "Jona", "Doe", 30, "jo@ex.com", "zzz", "0123456789", "p.png"⟩], 1⟩
      "jo@ex.com" "secret1"
      ⟨0, "Jona", "Doe", 30, "jo@ex.com", "zzz", "0123456789", "p.png"⟩
      rfl rfl (by decide) rfl (by decide) rfl).2 (by decide) rfl⟩

/-- C8 counterexample: signup enforces no email uniqueness (C10), and
delete_one removes only the first matching document; with two stored
records sharing an email, a delete succeeds yet a subsequent lookup still
finds a record and a subsequent login does not fail with
"invalid username" — contradicting the claim's "subsequent lookup finds no
record" for every delete on a matching email. -/
theorem delete_duplicate_email_counterexample :
    delete_profile "dup@ex.com"
      ⟨[⟨0, "Jona", "Doe", 30, "dup@ex.com", hashpw "secret1" "sa", "0123456789", "p.png"⟩,
        ⟨1, "Mona", "Roe", 31, "dup@ex.com", hashpw "secret2" "sb", "0123456780", "q.png"⟩],
        2⟩ =
      (.success "Profile deleted successfully",
        ⟨[⟨1, "Mona", "Roe", 31, "dup@ex.com", hashpw "secret2" "sb", "0123456780",
          "q.png"⟩], 2⟩) ∧
    find_one ⟨[⟨1, "Mona", "Roe", 31, "dup@ex.com", hashpw "secret2" "sb", "0123456780",
        "q.png"⟩], 2⟩ "dup@ex.com" ≠ none ∧
    login "multipart/form-data" [("email", .text "dup@ex.com"), ("password", .text "secret2")]
      none 0 ⟨[⟨1, "Mona", "Roe", 31, "dup@ex.com", hashpw "secret2" "sb", "0123456780",
        "q.png"⟩], 2⟩ ≠ .failure "invalid username" := by
  decide

/-- C8 amended: delete on a nonexistent email reports "user not found" and
leaves the store unchanged; delete on a matching email removes exactly the
first matching record (the matching count drops by one), and when that
record was the only one with the email, a subsequent lookup finds no record
and a subsequent login fails with "invalid username". -/
theorem delete_profile_behavior :
    (∀ (email : String) (st : Store), email ≠ "" → find_one st email = none →
      delete_profile email st = (.failure "user not found", st)) ∧
    (∀ (email : String) (st : Store) (u : Doc), email ≠ "" → find_one st email = some u →
      delete_profile email st =
        (.success "Profile deleted successfully", (delete_one st email).2) ∧
      (delete_one st email).2.docs.countP (fun d => d.email == email) =
        st.docs.countP (fun d => d.email == email) - 1 ∧
      (st.docs.countP (fun d => d.email == email) = 1 →
        find_one (delete_one st email).2 email = none ∧
        ∀ (ct : String) (form : Form) (env : Option String) (now : Nat) (p : String),
          containsSub "multipart/form-data" ct = true →
          formGet form "email" = some (.text email) →
          formGet form "password" = some (.text p) → p ≠ "" →
          login ct form env now (delete_one st email).2 = .failure "invalid username")) := by
  constructor
  · intro email st hne hfind
    have hne0 : (email == "") = false := beq_eq_false_iff_ne.mpr hne
    simp [delete_profile, hne0, hfind]
  · intro email st u hne hfind
    have hne0 : (email == "") = false := beq_eq_false_iff_ne.mpr hne
    have hdel := delGo_found st.docs u hfind
    refine ⟨by simp [delete_profile, hne0, hfind, delete_one, hdel.1], ?_, ?_⟩
    · simpa [delete_one] using hdel.2
    · intro hcount
      have hzero : (delete_one st email).2.docs.countP (fun d => d.email == email) = 0 := by
        simp [delete_one, hdel.2, hcount]
      have hnone : find_one (delete_one st email).2 email = none :=
        find?_none_of_countP_zero hzero
      refine ⟨hnone, ?_⟩
      intro ct form env now p hct he hp hpne
      exact login_invalid_username hct he hne hp hpne hnone

/-- Witness for the amended C8: delete on an absent email, then a delete of
the sole record under an email followed by the failed lookup and the failed
login. -/
theorem delete_profile_behavior_witness :
    delete_profile "no@ex.com" ⟨[], 0⟩ = (.failure "user not found", ⟨[], 0⟩) ∧
    delete_profile "jo@ex.com"
      ⟨[⟨0, "Jona", "Doe", 30, "jo@ex.com", hashpw "secret1" "sa", "0123456789", "p.png"⟩],
        1⟩ =
      (.success "Profile deleted successfully",
        (delete_one ⟨[⟨0, "Jona", "Doe", 30, "jo@ex.com", hashpw "secret1" "sa",
          "0123456789", "p.png"⟩], 1⟩ "jo@ex.com").2) ∧
    find_one (delete_one ⟨[⟨0, "Jona", "Doe", 30, "jo@ex.com", hashpw "secret1" "sa",
        "0123456789", "p.png"⟩], 1⟩ "jo@ex.com").2 "jo@ex.com" = none ∧
    login "multipart/form-data" [("email", .text "jo@ex.com"), ("password", .text "x1")]
      none 0 (delete_one ⟨[⟨0, "Jona", "Doe", 30, "jo@ex.com", hashpw "secret1" "sa",
        "0123456789", "p.png"⟩], 1⟩ "jo@ex.com").2 = .failure "invalid username" :=
  ⟨delete_profile_behavior.1 "no@ex.com" ⟨[], 0⟩ (by decide) rfl,
   (delete_profile_behavior.2 "jo@ex.com"
      ⟨[⟨0, "Jona", "Doe", 30, "jo@ex.com", hashpw "secret1" "sa", "0123456789", "p.png"⟩], 1⟩
      ⟨0, "Jona", "Doe", 30, "jo@ex.com", hashpw "secret1" "sa", "0123456789", "p.png"⟩
      (by decide) rfl).1,
   ((delete_profile_behavior.2 "jo@ex.com"
      ⟨[⟨0, "Jona", "Doe", 30, "jo@ex.com", hashpw "secret1" "sa", "0123456789", "p.png"⟩], 1⟩
      ⟨0, "Jona", "Doe", 30, "jo@ex.com", hashpw "secret1" "sa", "0123456789", "p.png"⟩
      (by decide) rfl).2.2 (by decide)).1,
   ((delete_profile_behavior.2 "jo@ex.com"
      ⟨[⟨0, "Jona", "Doe", 30, "jo@ex.com", hashpw "secret1" "sa", "0123456789", "p.png"⟩], 1⟩
      ⟨0, "Jona", "Doe", 30, "jo@ex.com", hashpw "secret1" "sa", "0123456789", "p.png"⟩
      (by decide) rfl).2.2 (by decide)).2 "multipart/form-data"
      [("email", .text "jo@ex.com"), ("password", .text "x1")] none 0 "x1"
      rfl rfl rfl (by decide)⟩

/-! ### Lemmas about the update merge steps -/

lemma updFormGo_append (d : DataMap) (l1 l2 : Form) :
    updFormGo d (l1 ++ l2) = updFormGo (updFormGo d l1) l2 := by
  induction l1 generalizing d with
  | nil => rfl
  | cons kv rest ih =>
    obtain ⟨k, v⟩ := kv
    cases v with
    | text t => simp only [List.cons_append, updFormGo]; exact ih _
    | file fn c =>
      simp only [List.cons_append, updFormGo]
      split <;> exact ih _

lemma updData1_getVal_ne (form : Form) (ex : Doc) (k : String)
    (hk : k ≠ "profilePic") :
    getVal (updData1 form ex) k = getVal (updData form) k := by
  unfold updData1
  split
  · exact getVal_setVal_ne _ _ _ _ hk
  · rfl

lemma updMerged_getVal_ne (form : Form) (ex : Doc) (k : String)
    (hk : k ≠ "password") (hk2 : k ≠ "profilePic") :
    getVal (updMerged form ex).1 k = getVal (updData form) k := by
  unfold updMerged
  split
  · simpa [getVal_setVal_ne _ _ _ _ hk] using updData1_getVal_ne form ex k hk2
  · exact updData1_getVal_ne form ex k hk2

lemma updMerged_pic (form : Form) (ex : Doc) :
    getVal (updMerged form ex).1 "profilePic" = getVal (updData1 form ex) "profilePic" := by
  unfold updMerged
  split
  · exact getVal_setVal_ne _ _ _ _ (by decide)
  · rfl

/-- The validated record of a successful update names the queried email. -/
lemma update_valid_email {form : Form} {ex : Doc} {valid : SignupRec} {e : String}
    (hsm : signupModel (updMerged form ex).1 = .ok valid)
    (he : getVal (updData form) "email" = some (.str e)) : valid.email = e := by
  have h1 := emailField_ok_getVal (signupModel_ok hsm).2.2.2.1
  rw [updMerged_getVal_ne form ex "email" (by decide) (by decide), he] at h1
  have := Option.some.inj h1
  injection this with h2
  exact h2.symm

/-- Shape of the store after a successful update: the first document
matching the queried email has been `$set` to the validated record with the
conditionally hashed password. -/
lemma update_profile_success_doc {ct : String} {form : Form} {salt : String}
    {st : Store} {e : String} {ex : Doc} {valid : SignupRec} {st' : Store}
    (hct : containsSub "multipart/form-data" ct = true)
    (he : getVal (updData form) "email" = some (.str e)) (hne : e ≠ "")
    (hfind : find_one st e = some ex)
    (hsm : signupModel (updMerged form ex).1 = .ok valid)
    (hsucc : update_profile ct form salt st = (.success "Profile updated successfully", st')) :
    find_one st' e =
      some (docUpd ex valid
        (if (updMerged form ex).2 then ex.password else hashpw valid.password salt)) := by
  have hne0 : (e == "") = false := beq_eq_false_iff_ne.mpr hne
  have hve : valid.email = e := update_valid_email hsm he
  have hupd := @updGo_found e valid
    (if (updMerged form ex).2 then ex.password else hashpw valid.password salt)
    hve st.docs ex hfind
  simp only [update_profile, hct, Bool.not_true, Bool.false_eq_true, if_false, he, hne0,
    hfind, hsm, update_one, hupd.1] at hsucc
  simp only [Nat.one_ne_zero, beq_iff_eq, if_false] at hsucc
  have hst : st' = ⟨(updGo e valid
      (if (updMerged form ex).2 = true then ex.password else hashpw valid.password salt)
      st.docs).2, st.nextId⟩ := by
    cases hsucc
    rfl
  rw [hst]
  exact hupd.2

/-- A validation failure in the update path never produces the success
response. -/
lemma update_profile_error_ne_success {ct : String} {form : Form} {salt : String}
    {st st' : Store} {e : String} {ex : Doc} {es : List FieldError}
    (hct : containsSub "multipart/form-data" ct = true)
    (he : getVal (updData form) "email" = some (.str e)) (hne : e ≠ "")
    (hfind : find_one st e = some ex)
    (hsm : signupModel (updMerged form ex).1 = .error es)
    (hsucc : update_profile ct form salt st =
      (.success "Profile updated successfully", st')) : False := by
  have hne0 : (e == "") = false := beq_eq_false_iff_ne.mpr hne
  simp [update_profile, hct, he, hne0, hfind, hsm] at hsucc

/-- C5 counterexample: a multipart update that carries no file at all but a
plain text field named profilePic.  The submission carries no new file, yet
the stored profilePic reference is replaced by the submitted text, not
preserved. -/
theorem update_text_profile_pic_counterexample :
    (([("firstName", FormValue.text "Jona"), ("lastName", FormValue.text "Doe"),
        ("age", FormValue.text "30"), ("email", FormValue.text "jo@ex.com"),
        ("password", FormValue.text "newpass7"), ("mobileNo", FormValue.text "0123456789"),
        ("profilePic", FormValue.text "hacked")] : Form).all
      (fun kv => match kv.2 with
        | FormValue.file _ _ => false
        | FormValue.text _ => true)) = true ∧
    update_profile "multipart/form-data"
      [("firstName", FormValue.text "Jona"), ("lastName", FormValue.text "Doe"),
        ("age", FormValue.text "30"), ("email", FormValue.text "jo@ex.com"),
        ("password", FormValue.text "newpass7"), ("mobileNo", FormValue.text "0123456789"),
        ("profilePic", FormValue.text "hacked")] "s2"
      ⟨[⟨0, "Jona", "Doe", 30, "jo@ex.com", "x", "0123456789", "uploads/old.png"⟩], 1⟩ =
      (.success "Profile updated successfully",
        ⟨[⟨0, "Jona", "Doe", 30, "jo@ex.com", hashpw "newpass7" "s2", "0123456789",
          "hacked"⟩], 1⟩) ∧
    ("hacked" : String) ≠ "uploads/old.png" := by
  decide

/-- C5 amended: in the update path, a submission whose normalized mapping
has no profilePic entry (no text value and no selected file — a file field
with an empty file name is dropped) preserves the stored profilePic
reference across a successful update, while a profilePic entry (the stored
path of a newly uploaded file, or a submitted text value) replaces it; a
trailing profilePic file field contributes the stored upload path
`uploads/<name>` exactly when its file name is non-empty. -/
theorem update_profile_pic_merge (ct : String) (form : Form) (salt : String)
    (st : Store) (e : String) (ex : Doc)
    (hct : containsSub "multipart/form-data" ct = true)
    (he : getVal (updData form) "email" = some (.str e)) (hne : e ≠ "")
    (hfind : find_one st e = some ex) :
    (getVal (updData form) "profilePic" = none →
      ∀ st', update_profile ct form salt st = (.success "Profile updated successfully", st') →
        (find_one st' e).map (fun d => d.profilePic) = some ex.profilePic) ∧
    (∀ pp, getVal (updData form) "profilePic" = some (.str pp) →
      ∀ st', update_profile ct form salt st = (.success "Profile updated successfully", st') →
        (find_one st' e).map (fun d => d.profilePic) = some pp) ∧
    (∀ (form0 : Form) (fn : String) (c : List Nat),
      getVal (updData (form0 ++ [("profilePic", .file fn c)])) "profilePic" =
        if fn == "" then getVal (updData form0) "profilePic"
        else some (.str (pathJoin UPLOAD_DIR fn))) := by
  refine ⟨?_, ?_, ?_⟩
  · intro hpic st' hsucc
    rcases hsm : signupModel (updMerged form ex).1 with es | valid
    · exact absurd hsucc (fun hs => update_profile_error_ne_success hct he hne hfind hsm hs)
    · have hdoc := update_profile_success_doc hct he hne hfind hsm hsucc
      rw [hdoc]
      have h1 := strAnyField_ok_getVal (signupModel_ok hsm).2.2.2.2.2.2
      rw [updMerged_pic] at h1
      have h2 : getVal (updData1 form ex) "profilePic" = some (.str ex.profilePic) := by
        unfold updData1
        rw [hpic]
        exact getVal_setVal_self _ _ _
      rw [h2] at h1
      have h3 := Option.some.inj h1
      injection h3 with h4
      simp [docUpd, h4]
  · intro pp hpic st' hsucc
    rcases hsm : signupModel (updMerged form ex).1 with es | valid
    · exact absurd hsucc (fun hs => update_profile_error_ne_success hct he hne hfind hsm hs)
    · have hdoc := update_profile_success_doc hct he hne hfind hsm hsucc
      rw [hdoc]
      have h1 := strAnyField_ok_getVal (signupModel_ok hsm).2.2.2.2.2.2
      rw [updMerged_pic] at h1
      have h2 : getVal (updData1 form ex) "profilePic" = some (.str pp) := by
        unfold updData1
        simp only [hpic, Option.isNone_some, Bool.false_eq_true, if_false]
      rw [h2] at h1
      have h3 := Option.some.inj h1
      injection h3 with h4
      simp [docUpd, h4]
  · intro form0 fn c
    unfold updData
    rw [updFormGo_append]
    by_cases hfn : (fn == "") = true
    · simp [updFormGo, hfn]
    · simp only [updFormGo, hfn, Bool.false_eq_true, if_false]
      rw [getVal_setVal_self]

/-- Witness for the amended C5: an update without a profilePic entry
preserves the stored path; an update uploading new.png replaces it with
uploads/new.png; the form-level normalization drops an empty-named file and
stores a named one. -/
theorem update_profile_pic_merge_witness :
    (find_one (update_profile "multipart/form-data"
        [("firstName", .text "Jona"), ("lastName", .text "Doe"), ("age", .text "30"),
          ("email", .text "jo@ex.com"), ("password", .text "newpass7"),
          ("mobileNo", .text "0123456789")] "s2"
        ⟨[⟨0, "Jona", "Doe", 30, "jo@ex.com", "x", "0123456789", "uploads/old.png"⟩],
          1⟩).2 "jo@ex.com").map (fun d => d.profilePic) = some "uploads/old.png" ∧
    (find_one (update_profile "multipart/form-data"
        [("firstName", .text "Jona"), ("lastName", .text "Doe"), ("age", .text "30"),
          ("email", .text "jo@ex.com"), ("password", .text "newpass7"),
          ("mobileNo", .text "0123456789"), ("profilePic", .file "new.png" [1])] "s2"
        ⟨[⟨0, "Jona", "Doe", 30, "jo@ex.com", "x", "0123456789", "uploads/old.png"⟩],
          1⟩).2 "jo@ex.com").map (fun d => d.profilePic) = some "uploads/new.png" ∧
    getVal (updData ([("a", FormValue.text "b")] ++ [("profilePic", .file "" [])]))
        "profilePic" =
      (if ("" == "") = true then getVal (updData [("a", FormValue.text "b")]) "profilePic"
       else some (.str (pathJoin UPLOAD_DIR ""))) ∧
    getVal (updData ([("a", FormValue.text "b")] ++ [("profilePic", .file "new.png" [])]))
        "profilePic" =
      (if ("new.png" == "") = true
       then getVal (updData [("a", FormValue.text "b")]) "profilePic"
       else some (.str (pathJoin UPLOAD_DIR "new.png"))) :=
  ⟨(update_profile_pic_merge "multipart/form-data"
      [("firstName", .text "Jona"), ("lastName", .text "Doe"), ("age", .text "30"),
        ("email", .text "jo@ex.com"), ("password", .text "newpass7"),
        ("mobileNo", .text "0123456789")] "s2"
      ⟨[⟨0, "Jona", "Doe", 30, "jo@ex.com", "x", "0123456789", "uploads/old.png"⟩], 1⟩
      "jo@ex.com" ⟨0, "Jona", "Doe", 30, "jo@ex.com", "x", "0123456789", "uploads/old.png"⟩
      rfl rfl (by decide) rfl).1 rfl _ rfl,
   (update_profile_pic_merge "multipart/form-data"
      [("firstName", .text "Jona"), ("lastName", .text "Doe"), ("age", .text "30"),
        ("email", .text "jo@ex.com"), ("password", .text "newpass7"),
        ("mobileNo", .text "0123456789"), ("profilePic", .file "new.png" [1])] "s2"
      ⟨[⟨0, "Jona", "Doe", 30, "jo@ex.com", "x", "0123456789", "uploads/old.png"⟩], 1⟩
      "jo@ex.com" ⟨0, "Jona", "Doe", 30, "jo@ex.com", "x", "0123456789", "uploads/old.png"⟩
      rfl rfl (by decide) rfl).2.1 "uploads/new.png" rfl _ rfl,
   (update_profile_pic_merge "multipart/form-data"
      [("firstName", .text "Jona"), ("lastName", .text "Doe"), ("age", .text "30"),
        ("email", .text "jo@ex.com"), ("password", .text "newpass7"),
        ("mobileNo", .text "0123456789")] "s2"
      ⟨[⟨0, "Jona", "Doe", 30, "jo@ex.com", "x", "0123456789", "uploads/old.png"⟩], 1⟩
      "jo@ex.com" ⟨0, "Jona", "Doe", 30, "jo@ex.com", "x", "0123456789", "uploads/old.png"⟩
      rfl rfl (by decide) rfl).2.2 [("a", FormValue.text "b")] "" [],
   (update_profile_pic_merge "multipart/form-data"
      [("firstName", .text "Jona"), ("lastName", .text "Doe"), ("age", .text "30"),
        ("email", .text "jo@ex.com"), ("password", .text "newpass7"),
        ("mobileNo", .text "0123456789")] "s2"
      ⟨[⟨0, "Jona", "Doe", 30, "jo@ex.com", "x", "0123456789", "uploads/old.png"⟩], 1⟩
      "jo@ex.com" ⟨0, "Jona", "Doe", 30, "jo@ex.com", "x", "0123456789", "uploads/old.png"⟩
      rfl rfl (by decide) rfl).2.2 [("a", FormValue.text "b")] "new.png" []⟩

/-- C6: in the update path, when the submitted password is absent or empty,
the stored (already hashed) password string is copied into the submission
and the hashing step is marked skipped, so across a successful update the
stored hash is unchanged and verification of any plaintext against it is
unchanged (in particular the original plaintext still verifies); when a
non-empty password is submitted, the stored hash is replaced across a
successful update by a fresh hash of the new password, which the new
password verifies against. -/
theorem update_password_merge (ct : String) (form : Form) (salt : String)
    (st : Store) (e : String) (ex : Doc)
    (hct : containsSub "multipart/form-data" ct = true)
    (he : getVal (updData form) "email" = some (.str e)) (hne : e ≠ "")
    (hfind : find_one st e = some ex) :
    (vTruthy (getVal (updData form) "password") = false →
      (updMerged form ex).1 = setVal (updData1 form ex) "password" (.str ex.password) ∧
      (updMerged form ex).2 = true ∧
      ∀ st', update_profile ct form salt st = (.success "Profile updated successfully", st') →
        (find_one st' e).map (fun d => d.password) = some ex.password ∧
        ∀ pt, (find_one st' e).map (fun d => checkpw pt d.password) =
          some (checkpw pt ex.password)) ∧
    (∀ pw, getVal (updData form) "password" = some (.str pw) → pw ≠ "" →
      ∀ st', update_profile ct form salt st = (.success "Profile updated successfully", st') →
        (find_one st' e).map (fun d => d.password) = some (hashpw pw salt) ∧
        (find_one st' e).map (fun d => checkpw pw d.password) = some (Except.ok true)) := by
  have hd1 : getVal (updData1 form ex) "password" = getVal (updData form) "password" :=
    updData1_getVal_ne form ex "password" (by decide)
  constructor
  · intro hskip
    have hmg : updMerged form ex =
        (setVal (updData1 form ex) "password" (.str ex.password), true) := by
      unfold updMerged
      rw [hd1, hskip]
      simp
    refine ⟨by rw [hmg], by rw [hmg], ?_⟩
    intro st' hsucc
    rcases hsm : signupModel (updMerged form ex).1 with es | valid
    · exact absurd hsucc (fun hs => update_profile_error_ne_success hct he hne hfind hsm hs)
    · have hdoc := update_profile_success_doc hct he hne hfind hsm hsucc
      rw [hdoc]
      have h2 : (updMerged form ex).2 = true := by rw [hmg]
      constructor
      · simp [docUpd, h2]
      · intro pt
        simp [docUpd, h2]
  · intro pw hpw hpne st' hsucc
    have htr : vTruthy (getVal (updData1 form ex) "password") = true := by
      rw [hd1, hpw]
      simp [vTruthy, hpne]
    have hmg : updMerged form ex = (updData1 form ex, false) := by
      unfold updMerged
      rw [htr]
      simp
    rcases hsm : signupModel (updMerged form ex).1 with es | valid
    · exact absurd hsucc (fun hs => update_profile_error_ne_success hct he hne hfind hsm hs)
    · have hvp : valid.password = pw := by
        have h1 := strMinField_ok_getVal (signupModel_ok hsm).2.2.2.2.1
        rw [show (updMerged form ex).1 = updData1 form ex by rw [hmg]] at h1
        rw [hd1, hpw] at h1
        have h3 := Option.some.inj h1
        injection h3 with h4
        exact h4.symm
      have hdoc := update_profile_success_doc hct he hne hfind hsm hsucc
      rw [hdoc]
      have h2 : (updMerged form ex).2 = false := by rw [hmg]
      constructor
      · simp [docUpd, h2, hvp]
      · simp [docUpd, h2, hvp, checkpw_hashpw]

/-- Witness for C6: an update submitting an empty password keeps the stored
hash (the original plaintext still verifies); an update submitting
"newpass7" replaces it with a hash that "newpass7" verifies against. -/
theorem update_password_merge_witness :
    (updMerged [("firstName", .text "Jona"), ("lastName", .text "Doe"), ("age", .text "30"),
        ("email", .text "jo@ex.com"), ("password", .text ""),
        ("mobileNo", .text "0123456789"), ("profilePic", .text "p.png")]
      ⟨0, "Jona", "Doe", 30, "jo@ex.com", hashpw "secret1" "sa", "0123456789",
        "p.png"⟩).2 = true ∧
    (find_one (update_profile "multipart/form-data"
        [("firstName", .text "Jona"), ("lastName", .text "Doe"), ("age", .text "30"),
          ("email", .text "jo@ex.com"), ("password", .text ""),
          ("mobileNo", .text "0123456789"), ("profilePic", .text "p.png")] "s2"
        ⟨[⟨0, "Jona", "Doe", 30, "jo@ex.com", hashpw "secret1" "sa", "0123456789",
          "p.png"⟩], 1⟩).2 "jo@ex.com").map (fun d => d.password) =
      some (hashpw "secret1" "sa") ∧
    (find_one (update_profile "multipart/form-data"
        [("firstName", .text "Jona"), ("lastName", .text "Doe"), ("age", .text "30"),
          ("email", .text "jo@ex.com"), ("password", .text ""),
          ("mobileNo", .text "0123456789"), ("profilePic", .text "p.png")] "s2"
        ⟨[⟨0, "Jona", "Doe", 30, "jo@ex.com", hashpw "secret1" "sa", "0123456789",
          "p.png"⟩], 1⟩).2 "jo@ex.com").map (fun d => checkpw "secret1" d.password) =
      some (checkpw "secret1" (hashpw "secret1" "sa")) ∧
    (find_one (update_profile "multipart/form-data"
        [("firstName", .text "Jona"), ("lastName", .text "Doe"), ("age", .text "30"),
          ("email", .text "jo@ex.com"), ("password", .text "newpass7"),
          ("mobileNo", .text "0123456789"), ("profilePic", .text "p.png")] "s2"
        ⟨[⟨0, "Jona", "Doe", 30, "jo@ex.com", hashpw "secret1" "sa", "0123456789",
          "p.png"⟩], 1⟩).2 "jo@ex.com").map (fun d => d.password) =
      some (hashpw "newpass7" "s2") ∧
    (find_one (update_profile "multipart/form-data"
        [("firstName", .text "Jona"), ("lastName", .text "Doe"), ("age", .text "30"),
          ("email", .text "jo@ex.com"), ("password", .text "newpass7"),
          ("mobileNo", .text "0123456789"), ("profilePic", .text "p.png")] "s2"
        ⟨[⟨0, "Jona", "Doe", 30, "jo@ex.com", hashpw "secret1" "sa", "0123456789",
          "p.png"⟩], 1⟩).2 "jo@ex.com").map (fun d => checkpw "newpass7" d.password) =
      some (Except.ok true) :=
  ⟨((update_password_merge "multipart/form-data"
      [("firstName", .text "Jona"), ("lastName", .text "Doe"), ("age", .text "30"),
        ("email", .text "jo@ex.com"), ("password", .text ""),
        ("mobileNo", .text "0123456789"), ("profilePic", .text "p.png")] "s2"
      ⟨[⟨0, "Jona", "Doe", 30, "jo@ex.com", hashpw "secret1" "sa", "0123456789",
        "p.png"⟩], 1⟩ "jo@ex.com"
      ⟨0, "Jona", "Doe", 30, "jo@ex.com", hashpw "secret1" "sa", "0123456789", "p.png"⟩
      rfl rfl (by decide) rfl).1 rfl).2.1,
   (((update_password_merge "multipart/form-data"
      [("firstName", .text "Jona"), ("lastName", .text "Doe"), ("age", .text "30"),
        ("email", .text "jo@ex.com"), ("password", .text ""),
        ("mobileNo", .text "0123456789"), ("profilePic", .text "p.png")] "s2"
      ⟨[⟨0, "Jona", "Doe", 30, "jo@ex.com", hashpw "secret1" "sa", "0123456789",
        "p.png"⟩], 1⟩ "jo@ex.com"
      ⟨0, "Jona", "Doe", 30, "jo@ex.com", hashpw "secret1" "sa", "0123456789", "p.png"⟩
      rfl rfl (by decide) rfl).1 rfl).2.2 _ rfl).1,
   (((update_password_merge "multipart/form-data"
      [("firstName", .text "Jona"), ("lastName", .text "Doe"), ("age", .text "30"),
        ("email", .text "jo@ex.com"), ("password", .text ""),
        ("mobileNo", .text "0123456789"), ("profilePic", .text "p.png")] "s2"
      ⟨[⟨0, "Jona", "Doe", 30, "jo@ex.com", hashpw "secret1" "sa", "0123456789",
        "p.png"⟩], 1⟩ "jo@ex.com"
      ⟨0, "Jona", "Doe", 30, "jo@ex.com", hashpw "secret1" "sa", "0123456789", "p.png"⟩
      rfl rfl (by decide) rfl).1 rfl).2.2 _ rfl).2 "secret1",
   ((update_password_merge "multipart/form-data"
      [("firstName", .text "Jona"), ("lastName", .text "Doe"), ("age", .text "30"),
        ("email", .text "jo@ex.com"), ("password", .text "newpass7"),
        ("mobileNo", .text "0123456789"), ("profilePic", .text "p.png")] "s2"
      ⟨[⟨0, "Jona", "Doe", 30, "jo@ex.com", hashpw "secret1" "sa", "0123456789",
        "p.png"⟩], 1⟩ "jo@ex.com"
      ⟨0, "Jona", "Doe", 30, "jo@ex.com", hashpw "secret1" "sa", "0123456789", "p.png"⟩
      rfl rfl (by decide) rfl).2 "newpass7" rfl (by decide) _ rfl).1,
   ((update_password_merge "multipart/form-data"
      [("firstName", .text "Jona"), ("lastName", .text "Doe"), ("age", .text "30"),
        ("email", .text "jo@ex.com"), ("password", .text "newpass7"),
        ("mobileNo", .text "0123456789"), ("profilePic", .text "p.png")] "s2"
      ⟨[⟨0, "Jona", "Doe", 30, "jo@ex.com", hashpw "secret1" "sa", "0123456789",
        "p.png"⟩], 1⟩ "jo@ex.com"
      ⟨0, "Jona", "Doe", 30, "jo@ex.com", hashpw "secret1" "sa", "0123456789", "p.png"⟩
      rfl rfl (by decide) rfl).2 "newpass7" rfl (by decide) _ rfl).2⟩

end PyApp
